import Mathlib

/-!
# LearnOpenGL: render-loop skeletons as call recorders

A shallow embedding of the three tutorial programs

* `1.2.hello_window_clear/hello_window_clear_my.cpp`
* `3.1.shaders_uniform/shaders_uniform_my.cpp`
* `4.1.textures/textures_my.cpp`

Each `main` is a straight sequence of calls into GLFW, OpenGL and stb_image.
The collaborators are modelled as a recorder: every call is appended to a
trace together with the value the collaborator answered.  The answers (window
pointer, object names, compile and link statuses, decoded image, key state,
pending window events) are inputs of a run.
-/

namespace LearnOpenGL

/-! ## Constants of the collaborating libraries -/

/-- Symbolic GLFW constants used by the programs. -/
inductive GLFWconst where
  | GLFW_CONTEXT_VERSION_MAJOR
  | GLFW_CONTEXT_VERSION_MINOR
  | GLFW_OPENGL_PROFILE
  | GLFW_OPENGL_CORE_PROFILE
  | GLFW_KEY_0
  | GLFW_PRESS
  | GLFW_RELEASE
deriving DecidableEq

/-- Symbolic OpenGL constants used by the programs. -/
inductive GLenum where
  | GL_VERTEX_SHADER
  | GL_FRAGMENT_SHADER
  | GL_COMPILE_STATUS
  | GL_LINK_STATUS
  | GL_ARRAY_BUFFER
  | GL_ELEMENT_ARRAY_BUFFER
  | GL_STATIC_DRAW
  | GL_FLOAT
  | GL_FALSE
  | GL_TRIANGLES
  | GL_UNSIGNED_INT
  | GL_UNSIGNED_BYTE
  | GL_COLOR_BUFFER_BIT
  | GL_TEXTURE0
  | GL_TEXTURE_2D
  | GL_TEXTURE_WRAP_S
  | GL_TEXTURE_WRAP_T
  | GL_TEXTURE_MIN_FILTER
  | GL_TEXTURE_MAG_FILTER
  | GL_REPEAT
  | GL_LINEAR
  | GL_RGB
deriving DecidableEq

/-- A decimal float literal of the source text, `mantissa / 10 ^ exponent`
(`0.5f` is `⟨5, 1⟩`).  Only literals are represented: no float arithmetic is
part of the embedding. -/
structure FloatLit where
  mantissa : Int
  exponent : Nat
deriving DecidableEq

/-- The lines written to `std::cout`. -/
inductive Message where
  | failedWindow
  | failedGLAD
  | vertexCompilationFailed
  | fragmentCompilationFailed
  | programLinkFailed
  | failedTexture
deriving DecidableEq

/-- The literal text of each message (the info log that follows a shader
message is the collaborator's and is not represented). -/
def Message.text : Message → String
  | .failedWindow => "Failed to create GLFW window "
  | .failedGLAD => "Failed to initialize GLAD"
  | .vertexCompilationFailed => "ERROR::SHADER::VERTEX::COMPILATION_FAILED\n"
  | .fragmentCompilationFailed => "ERROR::SHADER::FRAGMENT::COMPILATION_FAILED\n"
  | .programLinkFailed => "ERROR::SHADER::PROGRAM::LINK_FAILED\n"
  | .failedTexture => "Failed to load texture"

/-- Size in bytes of a `float` on the platforms OpenGL runs on. -/
def sizeof_float : Nat := 4

/-- Size in bytes of an `unsigned int`. -/
def sizeof_uint : Nat := 4

/-! ## Recorded calls -/

/-- One recorded call.  Window pointers and object names are numbers, `0` is
`NULL` (respectively the null object).  A call that returns a value carries it
as its last field `result`.  Float arguments computed at run time
(`glUniform4f`) are left out. -/
inductive Call where
  | glfwInit
  | glfwWindowHint (hint : GLFWconst) (value : GLFWconst ⊕ Int)
  | glfwCreateWindow (width height : Int) (title : String) (result : Nat)
  | cout (m : Message)
  | glfwMakeContextCurrent (window : Nat)
  | gladLoadGLLoader (result : Bool)
  | glfwSetFramebufferSizeCallback (window : Nat)
  | glfwWindowShouldClose (window : Nat) (result : Bool)
  | glfwGetKey (window : Nat) (key : GLFWconst) (result : GLFWconst)
  | glfwSetWindowShouldClose (window : Nat) (value : Bool)
  | glfwGetTime
  | glfwSwapBuffers (window : Nat)
  | glfwPollEvents
  | glfwTerminate
  | glViewport (x y width height : Int)
  | glClearColor (r g b a : FloatLit)
  | glClear (mask : GLenum)
  | glCreateShader (type : GLenum) (result : Nat)
  | glShaderSource (shader : Nat)
  | glCompileShader (shader : Nat)
  | glGetShaderiv (shader : Nat) (pname : GLenum) (result : Bool)
  | glGetShaderInfoLog (shader : Nat)
  | glCreateProgram (result : Nat)
  | glAttachShader (program shader : Nat)
  | glLinkProgram (program : Nat)
  | glGetProgramiv (program : Nat) (pname : GLenum) (result : Bool)
  | glGetProgramInfoLog (program : Nat)
  | glUseProgram (program : Nat)
  | glDeleteShader (shader : Nat)
  | glDeleteProgram (program : Nat)
  | glGetUniformLocation (program : Nat) (name : String) (result : Int)
  | glUniform4f (location : Int)
  | glGenBuffers (n : Nat) (result : Nat)
  | glBindBuffer (target : GLenum) (buffer : Nat)
  | glBufferData (target : GLenum) (size : Nat) (usage : GLenum)
  | glDeleteBuffers (n : Nat) (buffer : Nat)
  | glGenVertexArrays (n : Nat) (result : Nat)
  | glBindVertexArray (array : Nat)
  | glVertexAttribPointer (index size : Nat) (type normalized : GLenum) (stride pointer : Nat)
  | glEnableVertexAttribArray (index : Nat)
  | glDeleteVertexArrays (n : Nat) (array : Nat)
  | glDrawArrays (mode : GLenum) (first count : Nat)
  | glDrawElements (mode : GLenum) (count : Nat) (type : GLenum) (indices : Nat)
  | glGenTextures (n : Nat) (result : Nat)
  | glActiveTexture (unit : GLenum)
  | glBindTexture (target : GLenum) (texture : Nat)
  | glTexParameteri (target pname param : GLenum)
  | glTexImage2D (target : GLenum) (level : Int) (internalformat : GLenum)
      (width height border : Int) (format type : GLenum)
  | glGenerateMipmap (target : GLenum)
  | glDeleteTextures (n : Nat) (texture : Nat)
  | stbi_load (path : String) (result : Bool)
  | stbi_image_free (nonNull : Bool)

/-! ## State and inputs of a run -/

/-- The state a program threads through its calls: the window's should-close
flag and the trace recorded so far.  The recorder answers for a null window as
for any other; GLFW leaves that case undefined. -/
structure World where
  shouldClose : Bool
  trace : List Call

/-- What the collaborators answer during initialization. -/
structure Env where
  /-- Result of `glfwCreateWindow`; `0` is `NULL`. -/
  window : Nat
  /-- Result of `gladLoadGLLoader`. -/
  gladLoaded : Bool
  /-- Names returned by `glCreateShader` and `glCreateProgram`. -/
  vertexShader : Nat
  fragmentShader : Nat
  shaderProgram : Nat
  /-- Compile and link statuses. -/
  vertexCompiled : Bool
  fragmentCompiled : Bool
  linked : Bool
  /-- Names written by `glGenBuffers`, `glGenVertexArrays`, `glGenTextures`. -/
  VBO : Nat
  VAO : Nat
  EBO : Nat
  texture : Nat
  /-- Result of `stbi_load`: `none` is a null buffer, otherwise width and
  height of the decoded image. -/
  data : Option (Int × Int)
deriving DecidableEq

/-- What the collaborators answer during one pass through the loop body. -/
structure FrameInput where
  /-- `glfwGetKey(window, GLFW_KEY_0) == GLFW_PRESS`. -/
  key0Pressed : Bool
  /-- Result of `glGetUniformLocation`. -/
  uniformLocation : Int
  /-- Framebuffer resize events delivered by `glfwPollEvents`. -/
  resizes : List (Int × Int)
  /-- The user asked the window to close; `glfwPollEvents` sets the flag. -/
  closeRequested : Bool
deriving DecidableEq

/-- A run of `main`: the final state, and the exit code if `main` returned
(`none` when the script of frame inputs ran out while the loop was running). -/
structure Run where
  world : World
  returned : Option Int

/-- Record one call. -/
def call (c : Call) (w : World) : World :=
  { w with trace := w.trace ++ [c] }

/-- The statement `if (c) { block }` without an else branch. -/
def ifThen (c : Bool) (block : World → World) (w : World) : World :=
  if c then block w else w

/-- The state at program start. -/
def World.start : World := ⟨false, []⟩

/-- The collaborator `glfwGetKey`: records the query and answers the key state. -/
def glfwGetKey (window : Nat) (key : GLFWconst) (f : FrameInput) (w : World) :
    GLFWconst × World :=
  let r := if f.key0Pressed then GLFWconst.GLFW_PRESS else GLFWconst.GLFW_RELEASE
  (r, call (.glfwGetKey window key r) w)

/-- The collaborator `glfwSetWindowShouldClose`. -/
def glfwSetWindowShouldClose (window : Nat) (value : Bool) (w : World) : World :=
  { call (.glfwSetWindowShouldClose window value) w with shouldClose := value }

/-- The collaborator `glfwPollEvents`: delivers the pending resize events to
the registered framebuffer-size callback and raises the should-close flag if
the user asked to close the window. -/
def glfwPollEvents (callback : Nat → Int → Int → World → World) (window : Nat)
    (f : FrameInput) (w : World) : World :=
  let w := call .glfwPollEvents w
  let w := f.resizes.foldl (fun w p => callback window p.1 p.2 w) w
  { w with shouldClose := w.shouldClose || f.closeRequested }

/-- The loop `while (!glfwWindowShouldClose(window)) body`.  An evaluation of
the condition is recorded with its result.  The body consumes one frame input
per iteration; when the flag is down and the script of frame inputs is used up,
the run stops there without recording a further test.  The flag `true` in the
result says the loop exited; `false` says the script ran out first. -/
def whileNotShouldClose (window : Nat) (body : FrameInput → World → World) :
    List FrameInput → World → World × Bool
  | fs, w =>
    if w.shouldClose then (call (.glfwWindowShouldClose window true) w, true)
    else match fs with
      | [] => (w, false)
      | f :: rest =>
        whileNotShouldClose window body rest
          (body f (call (.glfwWindowShouldClose window false) w))

/-! ## hello_window_clear_my.cpp -/

namespace HelloWindowClear

/-- Lines 6-9. -/
def framebuffer_size_callback (_window : Nat) (width height : Int) (w : World) : World :=
  call (.glViewport 0 0 width height) w

/-- Lines 11-18. -/
def processInput (window : Nat) (f : FrameInput) (w : World) : World :=
  let (key, w) := glfwGetKey window .GLFW_KEY_0 f w
  if key = .GLFW_PRESS then
    glfwSetWindowShouldClose window true w
  else w

/-- Lines 22-45: everything before the loop. -/
def init (env : Env) (w : World) : World :=
  let w := call .glfwInit w
  let w := call (.glfwWindowHint .GLFW_CONTEXT_VERSION_MAJOR (.inr 3)) w
  let w := call (.glfwWindowHint .GLFW_CONTEXT_VERSION_MINOR (.inr 3)) w
  let w := call (.glfwWindowHint .GLFW_OPENGL_PROFILE (.inl .GLFW_OPENGL_CORE_PROFILE)) w
  let w := call (.glfwCreateWindow 800 600 "LearnOpenGL" env.window) w
  let window := env.window
  let w := ifThen (window = 0) (call (.cout .failedWindow)) w
  let w := call (.glfwMakeContextCurrent window) w
  let w := call (.gladLoadGLLoader env.gladLoaded) w
  let w := ifThen (!env.gladLoaded) (call (.cout .failedGLAD)) w
  let w := call (.glfwSetFramebufferSizeCallback window) w
  w

/-- Lines 50-60: the loop body. -/
def loopBody (window : Nat) (f : FrameInput) (w : World) : World :=
  let w := processInput window f w
  let w := call (.glClearColor ⟨2, 1⟩ ⟨3, 1⟩ ⟨3, 1⟩ ⟨10, 1⟩) w
  let w := call (.glClear .GL_COLOR_BUFFER_BIT) w
  let w := call (.glfwSwapBuffers window) w
  let w := glfwPollEvents framebuffer_size_callback window f w
  w

/-- Lines 20-64. -/
def main (env : Env) (frames : List FrameInput) : Run :=
  let w := init env World.start
  let (w, exited) := whileNotShouldClose env.window (loopBody env.window) frames w
  if exited then
    let w := call .glfwTerminate w
    ⟨w, some 0⟩
  else ⟨w, none⟩

end HelloWindowClear

/-! ## shaders_uniform_my.cpp -/

namespace ShadersUniform

/-- Lines 6-9. -/
def framebuffer_size_callback (_window : Nat) (width height : Int) (w : World) : World :=
  call (.glViewport 0 0 width height) w

/-- Lines 11-18. -/
def processInput (window : Nat) (f : FrameInput) (w : World) : World :=
  let (key, w) := glfwGetKey window .GLFW_KEY_0 f w
  if key = .GLFW_PRESS then
    glfwSetWindowShouldClose window true w
  else w

/-- Lines 126-130. -/
def vertices : List FloatLit :=
  [⟨-5, 1⟩, ⟨-5, 1⟩, ⟨0, 1⟩,
   ⟨5, 1⟩, ⟨-5, 1⟩, ⟨0, 1⟩,
   ⟨0, 1⟩, ⟨5, 1⟩, ⟨0, 1⟩]

/-- Lines 38-159: everything before the loop. -/
def init (env : Env) (w : World) : World :=
  let w := call .glfwInit w
  let w := call (.glfwWindowHint .GLFW_CONTEXT_VERSION_MAJOR (.inr 3)) w
  let w := call (.glfwWindowHint .GLFW_CONTEXT_VERSION_MINOR (.inr 3)) w
  let w := call (.glfwWindowHint .GLFW_OPENGL_PROFILE (.inl .GLFW_OPENGL_CORE_PROFILE)) w
  let w := call (.glfwCreateWindow 800 600 "LearnOpenGL" env.window) w
  let window := env.window
  let w := ifThen (window = 0) (call (.cout .failedWindow)) w
  let w := call (.glfwMakeContextCurrent window) w
  let w := call (.gladLoadGLLoader env.gladLoaded) w
  let w := ifThen (!env.gladLoaded) (call (.cout .failedGLAD)) w
  let w := call (.glfwSetFramebufferSizeCallback window) w
  -- vertex stage, lines 65-81
  let vertexShader := env.vertexShader
  let w := call (.glCreateShader .GL_VERTEX_SHADER vertexShader) w
  let w := call (.glShaderSource vertexShader) w
  let w := call (.glCompileShader vertexShader) w
  let successs := env.vertexCompiled
  let w := call (.glGetShaderiv vertexShader .GL_COMPILE_STATUS successs) w
  let w := ifThen (!successs) (fun w =>
    let w := call (.glGetShaderInfoLog vertexShader) w
    call (.cout .vertexCompilationFailed) w) w
  -- fragment stage, lines 83-99
  let fragmentShader := env.fragmentShader
  let w := call (.glCreateShader .GL_FRAGMENT_SHADER fragmentShader) w
  let w := call (.glShaderSource fragmentShader) w
  let w := call (.glCompileShader fragmentShader) w
  let successs := env.fragmentCompiled
  let w := call (.glGetShaderiv fragmentShader .GL_COMPILE_STATUS successs) w
  let w := ifThen (!successs) (fun w =>
    let w := call (.glGetShaderInfoLog fragmentShader) w
    call (.cout .fragmentCompilationFailed) w) w
  -- program, lines 101-124
  let shaderProgram := env.shaderProgram
  let w := call (.glCreateProgram shaderProgram) w
  let w := call (.glAttachShader shaderProgram vertexShader) w
  let w := call (.glAttachShader shaderProgram fragmentShader) w
  let w := call (.glLinkProgram shaderProgram) w
  let successs := env.linked
  let w := call (.glGetProgramiv shaderProgram .GL_LINK_STATUS successs) w
  let w := ifThen (!successs) (fun w =>
    let w := call (.glGetProgramInfoLog shaderProgram) w
    call (.cout .programLinkFailed) w) w
  let w := call (.glUseProgram shaderProgram) w
  let w := call (.glDeleteShader vertexShader) w
  let w := call (.glDeleteShader fragmentShader) w
  -- buffers, lines 133-159
  let VBO := env.VBO
  let w := call (.glGenBuffers 1 VBO) w
  let w := call (.glBindBuffer .GL_ARRAY_BUFFER VBO) w
  let w := call (.glBufferData .GL_ARRAY_BUFFER (vertices.length * sizeof_float) .GL_STATIC_DRAW) w
  let VAO := env.VAO
  let w := call (.glGenVertexArrays 1 VAO) w
  let w := call (.glBindVertexArray VAO) w
  let w := call (.glVertexAttribPointer 0 3 .GL_FLOAT .GL_FALSE (3 * sizeof_float) 0) w
  let w := call (.glEnableVertexAttribArray 0) w
  let w := call (.glBindBuffer .GL_ARRAY_BUFFER 0) w
  w

/-- Lines 164-187: the loop body.  The float expression
`sin(timeValue) / 2.0f + 0.5f` is not evaluated. -/
def loopBody (env : Env) (f : FrameInput) (w : World) : World :=
  let window := env.window
  let w := processInput window f w
  let w := call (.glClearColor ⟨2, 1⟩ ⟨3, 1⟩ ⟨3, 1⟩ ⟨10, 1⟩) w
  let w := call (.glClear .GL_COLOR_BUFFER_BIT) w
  let w := call .glfwGetTime w
  let vertexColorLocation := f.uniformLocation
  let w := call (.glGetUniformLocation env.shaderProgram "ourColor" vertexColorLocation) w
  let w := call (.glUniform4f vertexColorLocation) w
  let w := call (.glDrawArrays .GL_TRIANGLES 0 3) w
  let w := call (.glfwSwapBuffers window) w
  let w := glfwPollEvents framebuffer_size_callback window f w
  w

/-- Lines 190-197: after the loop. -/
def teardown (env : Env) (w : World) : World :=
  let w := call (.glBindVertexArray 0) w
  let w := call (.glDeleteVertexArrays 1 env.VAO) w
  let w := call (.glDeleteBuffers 1 env.VBO) w
  let w := call (.glDeleteProgram env.shaderProgram) w
  let w := call .glfwTerminate w
  w

/-- Lines 36-199. -/
def main (env : Env) (frames : List FrameInput) : Run :=
  let w := init env World.start
  let (w, exited) := whileNotShouldClose env.window (loopBody env) frames w
  if exited then
    let w := teardown env w
    ⟨w, some 0⟩
  else ⟨w, none⟩

end ShadersUniform

/-! ## The Shader class used by textures_my.cpp -/

namespace Shader

/-- Modelled from the spec: the constructor of the `Shader` class of
`learnopengl/shader_s.h`, which is not among the source files.  It follows
steps 3 and 4 of the initialization phase: each stage is compiled, its status
checked and a failure logged, then the stages are linked into a program, the
link status checked and a failure logged; nothing aborts.  The stage objects
are released once linked, as the data-model invariant asks and as the inlined
code of shaders_uniform_my does.  The spec fixes no text for the log lines;
the messages of shaders_uniform_my stand for them.  The class has no
destructor in the spec. -/
def ctor (env : Env) (w : World) : World :=
  let vertex := env.vertexShader
  let w := call (.glCreateShader .GL_VERTEX_SHADER vertex) w
  let w := call (.glShaderSource vertex) w
  let w := call (.glCompileShader vertex) w
  let w := call (.glGetShaderiv vertex .GL_COMPILE_STATUS env.vertexCompiled) w
  let w := ifThen (!env.vertexCompiled) (fun w =>
    let w := call (.glGetShaderInfoLog vertex) w
    call (.cout .vertexCompilationFailed) w) w
  let fragment := env.fragmentShader
  let w := call (.glCreateShader .GL_FRAGMENT_SHADER fragment) w
  let w := call (.glShaderSource fragment) w
  let w := call (.glCompileShader fragment) w
  let w := call (.glGetShaderiv fragment .GL_COMPILE_STATUS env.fragmentCompiled) w
  let w := ifThen (!env.fragmentCompiled) (fun w =>
    let w := call (.glGetShaderInfoLog fragment) w
    call (.cout .fragmentCompilationFailed) w) w
  let ID := env.shaderProgram
  let w := call (.glCreateProgram ID) w
  let w := call (.glAttachShader ID vertex) w
  let w := call (.glAttachShader ID fragment) w
  let w := call (.glLinkProgram ID) w
  let w := call (.glGetProgramiv ID .GL_LINK_STATUS env.linked) w
  let w := ifThen (!env.linked) (fun w =>
    let w := call (.glGetProgramInfoLog ID) w
    call (.cout .programLinkFailed) w) w
  let w := call (.glDeleteShader vertex) w
  let w := call (.glDeleteShader fragment) w
  w

/-- Modelled from the spec: `Shader::use` of `learnopengl/shader_s.h`, which
is not among the source files; it makes the object's program the current
program. -/
def use (env : Env) (w : World) : World :=
  call (.glUseProgram env.shaderProgram) w

end Shader

/-! ## textures_my.cpp -/

namespace Textures

/-- Lines 10-13. -/
def framebuffer_size_callback (_window : Nat) (width height : Int) (w : World) : World :=
  call (.glViewport 0 0 width height) w

/-- Lines 15-22. -/
def processInput (window : Nat) (f : FrameInput) (w : World) : World :=
  let (key, w) := glfwGetKey window .GLFW_KEY_0 f w
  if key = .GLFW_PRESS then
    glfwSetWindowShouldClose window true w
  else w

/-- Lines 82-87. -/
def vertices : List FloatLit :=
  [⟨5, 1⟩, ⟨5, 1⟩, ⟨0, 1⟩, ⟨10, 1⟩, ⟨0, 1⟩, ⟨0, 1⟩, ⟨10, 1⟩, ⟨10, 1⟩,
   ⟨5, 1⟩, ⟨-5, 1⟩, ⟨0, 1⟩, ⟨0, 1⟩, ⟨10, 1⟩, ⟨0, 1⟩, ⟨10, 1⟩, ⟨0, 1⟩,
   ⟨-5, 1⟩, ⟨-5, 1⟩, ⟨0, 1⟩, ⟨0, 1⟩, ⟨0, 1⟩, ⟨10, 1⟩, ⟨0, 1⟩, ⟨0, 1⟩,
   ⟨-5, 1⟩, ⟨5, 1⟩, ⟨0, 1⟩, ⟨10, 1⟩, ⟨10, 1⟩, ⟨0, 1⟩, ⟨0, 1⟩, ⟨10, 1⟩]

/-- Lines 89-93. -/
def indices : List Nat :=
  [0, 1, 3,
   1, 2, 3]

/-- Lines 27-134: everything before the loop. -/
def init (env : Env) (w : World) : World :=
  let w := call .glfwInit w
  let w := call (.glfwWindowHint .GLFW_CONTEXT_VERSION_MAJOR (.inr 3)) w
  let w := call (.glfwWindowHint .GLFW_CONTEXT_VERSION_MINOR (.inr 3)) w
  let w := call (.glfwWindowHint .GLFW_OPENGL_PROFILE (.inl .GLFW_OPENGL_CORE_PROFILE)) w
  let w := call (.glfwCreateWindow 800 600 "LearnOpenGL" env.window) w
  let window := env.window
  let w := ifThen (window = 0) (call (.cout .failedWindow)) w
  let w := call (.glfwMakeContextCurrent window) w
  let w := call (.gladLoadGLLoader env.gladLoaded) w
  let w := ifThen (!env.gladLoaded) (call (.cout .failedGLAD)) w
  let w := call (.glfwSetFramebufferSizeCallback window) w
  -- shader object, lines 52-53
  let w := Shader.ctor env w
  let w := Shader.use env w
  -- texture, lines 56-80
  let texture := env.texture
  let w := call (.glGenTextures 1 texture) w
  let w := call (.glActiveTexture .GL_TEXTURE0) w
  let w := call (.glBindTexture .GL_TEXTURE_2D texture) w
  let w := call (.glTexParameteri .GL_TEXTURE_2D .GL_TEXTURE_WRAP_S .GL_REPEAT) w
  let w := call (.glTexParameteri .GL_TEXTURE_2D .GL_TEXTURE_WRAP_T .GL_REPEAT) w
  let w := call (.glTexParameteri .GL_TEXTURE_2D .GL_TEXTURE_MIN_FILTER .GL_LINEAR) w
  let w := call (.glTexParameteri .GL_TEXTURE_2D .GL_TEXTURE_MAG_FILTER .GL_LINEAR) w
  let data := env.data
  let w := call (.stbi_load "resources/textures/container.jpg" data.isSome) w
  let w :=
    match data with
    | some (width, height) =>
      let w := call (.glTexImage2D .GL_TEXTURE_2D 0 .GL_RGB width height 0 .GL_RGB
        .GL_UNSIGNED_BYTE) w
      call (.glGenerateMipmap .GL_TEXTURE_2D) w
    | none => call (.cout .failedTexture) w
  let w := call (.stbi_image_free data.isSome) w
  -- buffers, lines 96-134
  let VBO := env.VBO
  let w := call (.glGenBuffers 1 VBO) w
  let w := call (.glBindBuffer .GL_ARRAY_BUFFER VBO) w
  let w := call (.glBufferData .GL_ARRAY_BUFFER (vertices.length * sizeof_float) .GL_STATIC_DRAW) w
  let VAO := env.VAO
  let w := call (.glGenVertexArrays 1 VAO) w
  let w := call (.glBindVertexArray VAO) w
  let w := call (.glVertexAttribPointer 0 3 .GL_FLOAT .GL_FALSE (8 * sizeof_float) 0) w
  let w := call (.glEnableVertexAttribArray 0) w
  let w := call (.glVertexAttribPointer 1 3 .GL_FLOAT .GL_FALSE (8 * sizeof_float)
    (3 * sizeof_float)) w
  let w := call (.glEnableVertexAttribArray 1) w
  let w := call (.glVertexAttribPointer 2 2 .GL_FLOAT .GL_FALSE (8 * sizeof_float)
    (6 * sizeof_float)) w
  let w := call (.glEnableVertexAttribArray 2) w
  let w := call (.glBindBuffer .GL_ARRAY_BUFFER 0) w
  let EBO := env.EBO
  let w := call (.glGenBuffers 1 EBO) w
  let w := call (.glBindBuffer .GL_ELEMENT_ARRAY_BUFFER EBO) w
  let w := call (.glBufferData .GL_ELEMENT_ARRAY_BUFFER (indices.length * sizeof_uint)
    .GL_STATIC_DRAW) w
  w

/-- Lines 139-164: the loop body. -/
def loopBody (env : Env) (f : FrameInput) (w : World) : World :=
  let window := env.window
  let w := processInput window f w
  let w := call (.glClearColor ⟨2, 1⟩ ⟨3, 1⟩ ⟨3, 1⟩ ⟨10, 1⟩) w
  let w := call (.glClear .GL_COLOR_BUFFER_BIT) w
  let w := call (.glDrawElements .GL_TRIANGLES 6 .GL_UNSIGNED_INT 0) w
  let w := call (.glfwSwapBuffers window) w
  let w := glfwPollEvents framebuffer_size_callback window f w
  w

/-- Lines 167-174: after the loop. -/
def teardown (env : Env) (w : World) : World :=
  let w := call (.glBindVertexArray 0) w
  let w := call (.glBindBuffer .GL_ELEMENT_ARRAY_BUFFER 0) w
  let w := call (.glDeleteVertexArrays 1 env.VAO) w
  let w := call (.glDeleteBuffers 1 env.VBO) w
  let w := call (.glDeleteBuffers 1 env.EBO) w
  let w := call .glfwTerminate w
  w

/-- Lines 24-176. -/
def main (env : Env) (frames : List FrameInput) : Run :=
  let w := init env World.start
  let (w, exited) := whileNotShouldClose env.window (loopBody env) frames w
  if exited then
    let w := teardown env w
    ⟨w, some 0⟩
  else ⟨w, none⟩

end Textures

/-! ## Observations on a recorded trace -/

/-- A draw submission. -/
def Call.isDraw : Call → Bool
  | .glDrawArrays _ _ _ => true
  | .glDrawElements _ _ _ _ => true
  | _ => false

/-- A present call. -/
def Call.isPresent : Call → Bool
  | .glfwSwapBuffers _ => true
  | _ => false

/-- An evaluation of the loop condition that lets the body run. -/
def Call.startsIteration : Call → Bool
  | .glfwWindowShouldClose _ false => true
  | _ => false

/-- A message written to `std::cout`. -/
def Call.isMessage (m : Message) : Call → Bool
  | .cout m' => m' = m
  | _ => false

/-- Number of times the loop body ran. -/
def iterations (t : List Call) : Nat := t.countP Call.startsIteration

/-- A texture upload. -/
def Call.isTexImage : Call → Bool
  | .glTexImage2D _ _ _ _ _ _ _ _ => true
  | _ => false

/-- A mipmap generation. -/
def Call.isMipmap : Call → Bool
  | .glGenerateMipmap _ => true
  | _ => false

/-- A release of the decoded image buffer. -/
def Call.isImageFree : Call → Bool
  | .stbi_image_free _ => true
  | _ => false

/-- A program link. -/
def Call.isLink : Call → Bool
  | .glLinkProgram _ => true
  | _ => false

/-- The loop tests, draw calls and present calls of `n` iterations: test, draw,
present, test, draw, present, ... -/
def frameEvents (test draw present : Call) : Nat → List Call
  | 0 => []
  | n + 1 => test :: draw :: present :: frameEvents test draw present n

/-- A loop test that starts an iteration, a draw call or a present call. -/
def Call.isFrameEvent (c : Call) : Bool := c.startsIteration || c.isDraw || c.isPresent

/-- The calls recorded after the first occurrence of a message. -/
def afterMessage (m : Message) (t : List Call) : List Call :=
  (t.dropWhile (fun c => !c.isMessage m)).drop 1

/-! ## Handles created and deleted along a trace -/

/-- The kinds of GPU objects; names are unique within a kind. -/
inductive Kind where
  | shader
  | program
  | buffer
  | vertexArray
  | texture
deriving DecidableEq

/-- A GPU handle: a kind and a name. -/
abbrev Handle := Kind × Nat

/-- The handle a call creates.  Every `glGen*` call of the programs asks for
one name. -/
def Call.creates : Call → List Handle
  | .glCreateShader _ r => [(.shader, r)]
  | .glCreateProgram r => [(.program, r)]
  | .glGenBuffers _ r => [(.buffer, r)]
  | .glGenVertexArrays _ r => [(.vertexArray, r)]
  | .glGenTextures _ r => [(.texture, r)]
  | _ => []

/-- The handle a call deletes. -/
def Call.deletes : Call → List Handle
  | .glDeleteShader s => [(.shader, s)]
  | .glDeleteProgram p => [(.program, p)]
  | .glDeleteBuffers _ b => [(.buffer, b)]
  | .glDeleteVertexArrays _ a => [(.vertexArray, a)]
  | .glDeleteTextures _ t => [(.texture, t)]
  | _ => []

/-- The handles returned by create calls along a trace, in order. -/
def created (t : List Call) : List Handle := t.flatMap Call.creates

/-- The handles passed to delete calls along a trace, in order. -/
def deleted (t : List Call) : List Handle := t.flatMap Call.deletes

/-- Value of the create counter at the end of a trace. -/
def createCount (t : List Call) : Nat := (created t).length

/-- Value of the delete counter at the end of a trace. -/
def deleteCount (t : List Call) : Nat := (deleted t).length

/-- How often a handle is returned by a create call. -/
def timesCreated (h : Handle) (t : List Call) : Nat :=
  (created t).countP (fun x => decide (x = h))

/-- How often a handle is passed to a delete call. -/
def timesDeleted (h : Handle) (t : List Call) : Nat :=
  (deleted t).countP (fun x => decide (x = h))

/-- A call that creates something. -/
def Call.isCreate (c : Call) : Bool := !c.creates.isEmpty

/-- A call that deletes something. -/
def Call.isDelete (c : Call) : Bool := !c.deletes.isEmpty

/-- The global bindings (spec §6): every bind call is a global mutation
observed by the calls that follow until rebound.  The element-array binding
belongs to the vertex array that is current when it is made, the 2D-texture
binding to the active texture unit. -/
structure Bindings where
  program : Nat
  vertexArray : Nat
  arrayBuffer : Nat
  elementBuffer : Nat → Nat
  activeTexture : GLenum
  texture2D : GLenum → Nat

/-- The bindings of a fresh context: nothing bound, unit 0 active. -/
def Bindings.initial : Bindings :=
  ⟨0, 0, 0, fun _ => 0, .GL_TEXTURE0, fun _ => 0⟩

/-- Effect of one call on the bindings. -/
def Bindings.step (b : Bindings) : Call → Bindings
  | .glUseProgram p => { b with program := p }
  | .glBindVertexArray a => { b with vertexArray := a }
  | .glBindBuffer .GL_ARRAY_BUFFER n => { b with arrayBuffer := n }
  | .glBindBuffer .GL_ELEMENT_ARRAY_BUFFER n =>
    { b with elementBuffer := Function.update b.elementBuffer b.vertexArray n }
  | .glActiveTexture u => { b with activeTexture := u }
  | .glBindTexture .GL_TEXTURE_2D t =>
    { b with texture2D := Function.update b.texture2D b.activeTexture t }
  | _ => b

/-- The bindings after a sequence of calls. -/
def Bindings.run (b : Bindings) (t : List Call) : Bindings := t.foldl Bindings.step b

/-- What a draw call sees: current program, current vertex array, that
array's element buffer, and the 2D texture of unit 0. -/
structure DrawState where
  program : Nat
  vertexArray : Nat
  elementBuffer : Nat
  texture : Nat
deriving DecidableEq

/-- The draw-relevant part of the bindings. -/
def Bindings.drawState (b : Bindings) : DrawState :=
  ⟨b.program, b.vertexArray, b.elementBuffer b.vertexArray, b.texture2D .GL_TEXTURE0⟩

/-- The draw state seen by each draw call of a trace, in order. -/
def drawStates (b : Bindings) : List Call → List DrawState
  | [] => []
  | c :: t =>
    if c.isDraw then b.drawState :: drawStates (b.step c) t
    else drawStates (b.step c) t

/-! ## Vertex layout -/

/-- One declared vertex attribute, in bytes as passed to
`glVertexAttribPointer`. -/
structure Attrib where
  index : Nat
  size : Nat
  stride : Nat
  pointer : Nat
deriving DecidableEq

/-- The attribute a call declares. -/
def Call.attrib : Call → Option Attrib
  | .glVertexAttribPointer i n _ _ s p => some ⟨i, n, s, p⟩
  | _ => none

/-- The attributes declared in a trace. -/
def attribs (t : List Call) : List Attrib := t.filterMap Call.attrib

/-- The float slots of a vertex that an attribute reads. -/
def Attrib.slots (a : Attrib) : List Nat :=
  List.range' (a.pointer / sizeof_float) a.size

/-- The size a call uploads to a buffer target. -/
def Call.upload (target : GLenum) : Call → Option Nat
  | .glBufferData tg n _ => if tg = target then some n else none
  | _ => none

/-- The sizes passed to `glBufferData` for a target. -/
def uploads (target : GLenum) (t : List Call) : List Nat := t.filterMap (Call.upload target)

/-- The `(first, count)` of a `glDrawArrays` call. -/
def Call.drawArrays : Call → Option (Nat × Nat)
  | .glDrawArrays _ first count => some (first, count)
  | _ => none

/-- The `(first, count)` of each `glDrawArrays` in a trace. -/
def drawArraysCalls (t : List Call) : List (Nat × Nat) := t.filterMap Call.drawArrays

/-- The `count` of a `glDrawElements` call. -/
def Call.drawElements : Call → Option Nat
  | .glDrawElements _ count _ _ => some count
  | _ => none

/-- The `count` of each `glDrawElements` in a trace. -/
def drawElementsCalls (t : List Call) : List Nat := t.filterMap Call.drawElements

/-! ## The frames a loop executes -/

/-- A frame after which the should-close flag is set. -/
def FrameInput.closes (f : FrameInput) : Bool := f.key0Pressed || f.closeRequested

/-- The frames of a script that the loop executes: up to and including the
first one that closes. -/
def executed : List FrameInput → List FrameInput
  | [] => []
  | f :: rest => if f.closes then [f] else f :: executed rest

/-! ## Call sequences used to state the traces in closed form -/

/-- The viewport updates made by the framebuffer-size callback for the resize
events of a frame. -/
def viewportCalls (f : FrameInput) : List Call :=
  f.resizes.map (fun p => Call.glViewport 0 0 p.1 p.2)

/-- Calls of the window and context setup shared by the three programs. -/
def setupCalls (env : Env) : List Call :=
  [.glfwInit,
   .glfwWindowHint .GLFW_CONTEXT_VERSION_MAJOR (.inr 3),
   .glfwWindowHint .GLFW_CONTEXT_VERSION_MINOR (.inr 3),
   .glfwWindowHint .GLFW_OPENGL_PROFILE (.inl .GLFW_OPENGL_CORE_PROFILE),
   .glfwCreateWindow 800 600 "LearnOpenGL" env.window]
  ++ (if env.window = 0 then [.cout .failedWindow] else [])
  ++ [.glfwMakeContextCurrent env.window, .gladLoadGLLoader env.gladLoaded]
  ++ (if env.gladLoaded then [] else [.cout .failedGLAD])
  ++ [.glfwSetFramebufferSizeCallback env.window]

/-- Calls that create and compile one shader stage and log a failure. -/
def stageCalls (type : GLenum) (shader : Nat) (compiled : Bool) (m : Message) : List Call :=
  [.glCreateShader type shader, .glShaderSource shader, .glCompileShader shader,
   .glGetShaderiv shader .GL_COMPILE_STATUS compiled]
  ++ (if compiled then [] else [.glGetShaderInfoLog shader, .cout m])

/-- Calls that create and link the program and log a failure. -/
def linkCalls (env : Env) : List Call :=
  [.glCreateProgram env.shaderProgram,
   .glAttachShader env.shaderProgram env.vertexShader,
   .glAttachShader env.shaderProgram env.fragmentShader,
   .glLinkProgram env.shaderProgram,
   .glGetProgramiv env.shaderProgram .GL_LINK_STATUS env.linked]
  ++ (if env.linked then [] else [.glGetProgramInfoLog env.shaderProgram, .cout .programLinkFailed])

/-- Calls of `processInput`. -/
def inputCalls (window : Nat) (f : FrameInput) : List Call :=
  .glfwGetKey window .GLFW_KEY_0 (if f.key0Pressed then .GLFW_PRESS else .GLFW_RELEASE)
  :: (if f.key0Pressed then [.glfwSetWindowShouldClose window true] else [])

/-- The two clear calls of every loop body. -/
def clearCalls : List Call :=
  [.glClearColor ⟨2, 1⟩ ⟨3, 1⟩ ⟨3, 1⟩ ⟨10, 1⟩, .glClear .GL_COLOR_BUFFER_BIT]

/-- Trace of a run whose initialization, loop body and teardown record the
given calls. -/
def runTrace (window : Nat) (initT : List Call) (bodyT : FrameInput → List Call)
    (teardownT : List Call) (frames : List FrameInput) : List Call :=
  initT
  ++ (executed frames).flatMap (fun f => Call.glfwWindowShouldClose window false :: bodyT f)
  ++ (if frames.any FrameInput.closes then
        Call.glfwWindowShouldClose window true :: teardownT
      else [])

namespace HelloWindowClear

/-- Calls of one loop body. -/
def bodyTrace (env : Env) (f : FrameInput) : List Call :=
  inputCalls env.window f ++ clearCalls
  ++ [.glfwSwapBuffers env.window, .glfwPollEvents] ++ viewportCalls f

end HelloWindowClear

namespace ShadersUniform

/-- Calls of the initialization. -/
def initTrace (env : Env) : List Call :=
  setupCalls env
  ++ stageCalls .GL_VERTEX_SHADER env.vertexShader env.vertexCompiled .vertexCompilationFailed
  ++ stageCalls .GL_FRAGMENT_SHADER env.fragmentShader env.fragmentCompiled
      .fragmentCompilationFailed
  ++ linkCalls env
  ++ [.glUseProgram env.shaderProgram,
      .glDeleteShader env.vertexShader, .glDeleteShader env.fragmentShader,
      .glGenBuffers 1 env.VBO, .glBindBuffer .GL_ARRAY_BUFFER env.VBO,
      .glBufferData .GL_ARRAY_BUFFER 36 .GL_STATIC_DRAW,
      .glGenVertexArrays 1 env.VAO, .glBindVertexArray env.VAO,
      .glVertexAttribPointer 0 3 .GL_FLOAT .GL_FALSE 12 0,
      .glEnableVertexAttribArray 0,
      .glBindBuffer .GL_ARRAY_BUFFER 0]

/-- Calls of one loop body. -/
def bodyTrace (env : Env) (f : FrameInput) : List Call :=
  inputCalls env.window f ++ clearCalls
  ++ [.glfwGetTime,
      .glGetUniformLocation env.shaderProgram "ourColor" f.uniformLocation,
      .glUniform4f f.uniformLocation,
      .glDrawArrays .GL_TRIANGLES 0 3,
      .glfwSwapBuffers env.window, .glfwPollEvents]
  ++ viewportCalls f

/-- Calls of the teardown. -/
def teardownTrace (env : Env) : List Call :=
  [.glBindVertexArray 0, .glDeleteVertexArrays 1 env.VAO, .glDeleteBuffers 1 env.VBO,
   .glDeleteProgram env.shaderProgram, .glfwTerminate]

end ShadersUniform

namespace Textures

/-- Calls that follow the image decode, lines 69-77. -/
def decodeCalls (env : Env) : List Call :=
  match env.data with
  | some (width, height) =>
    [.glTexImage2D .GL_TEXTURE_2D 0 .GL_RGB width height 0 .GL_RGB .GL_UNSIGNED_BYTE,
     .glGenerateMipmap .GL_TEXTURE_2D]
  | none => [.cout .failedTexture]

/-- Calls of the texture setup, lines 56-80. -/
def textureCalls (env : Env) : List Call :=
  [.glGenTextures 1 env.texture, .glActiveTexture .GL_TEXTURE0,
   .glBindTexture .GL_TEXTURE_2D env.texture,
   .glTexParameteri .GL_TEXTURE_2D .GL_TEXTURE_WRAP_S .GL_REPEAT,
   .glTexParameteri .GL_TEXTURE_2D .GL_TEXTURE_WRAP_T .GL_REPEAT,
   .glTexParameteri .GL_TEXTURE_2D .GL_TEXTURE_MIN_FILTER .GL_LINEAR,
   .glTexParameteri .GL_TEXTURE_2D .GL_TEXTURE_MAG_FILTER .GL_LINEAR,
   .stbi_load "resources/textures/container.jpg" env.data.isSome]
  ++ decodeCalls env
  ++ [.stbi_image_free env.data.isSome]

/-- Calls of the buffer setup, lines 96-134. -/
def bufferCalls (env : Env) : List Call :=
  [.glGenBuffers 1 env.VBO, .glBindBuffer .GL_ARRAY_BUFFER env.VBO,
   .glBufferData .GL_ARRAY_BUFFER 128 .GL_STATIC_DRAW,
   .glGenVertexArrays 1 env.VAO, .glBindVertexArray env.VAO,
   .glVertexAttribPointer 0 3 .GL_FLOAT .GL_FALSE 32 0,
   .glEnableVertexAttribArray 0,
   .glVertexAttribPointer 1 3 .GL_FLOAT .GL_FALSE 32 12,
   .glEnableVertexAttribArray 1,
   .glVertexAttribPointer 2 2 .GL_FLOAT .GL_FALSE 32 24,
   .glEnableVertexAttribArray 2,
   .glBindBuffer .GL_ARRAY_BUFFER 0,
   .glGenBuffers 1 env.EBO, .glBindBuffer .GL_ELEMENT_ARRAY_BUFFER env.EBO,
   .glBufferData .GL_ELEMENT_ARRAY_BUFFER 24 .GL_STATIC_DRAW]

/-- Calls of the initialization. -/
def initTrace (env : Env) : List Call :=
  setupCalls env
  ++ stageCalls .GL_VERTEX_SHADER env.vertexShader env.vertexCompiled .vertexCompilationFailed
  ++ stageCalls .GL_FRAGMENT_SHADER env.fragmentShader env.fragmentCompiled
      .fragmentCompilationFailed
  ++ linkCalls env
  ++ [.glDeleteShader env.vertexShader, .glDeleteShader env.fragmentShader,
      .glUseProgram env.shaderProgram]
  ++ textureCalls env ++ bufferCalls env

/-- Calls of one loop body. -/
def bodyTrace (env : Env) (f : FrameInput) : List Call :=
  inputCalls env.window f ++ clearCalls
  ++ [.glDrawElements .GL_TRIANGLES 6 .GL_UNSIGNED_INT 0,
      .glfwSwapBuffers env.window, .glfwPollEvents]
  ++ viewportCalls f

/-- Calls of the teardown. -/
def teardownTrace (env : Env) : List Call :=
  [.glBindVertexArray 0, .glBindBuffer .GL_ELEMENT_ARRAY_BUFFER 0,
   .glDeleteVertexArrays 1 env.VAO, .glDeleteBuffers 1 env.VBO, .glDeleteBuffers 1 env.EBO,
   .glfwTerminate]

end Textures

/-! ## Inputs used to evaluate the programs -/

/-- Collaborator answers of a run in which window creation fails: the window
pointer is `NULL`, the loader finds no context, every name comes back `0`. -/
def nullWindowEnv : Env :=
  { window := 0, gladLoaded := false, vertexShader := 0, fragmentShader := 0,
    shaderProgram := 0, vertexCompiled := false, fragmentCompiled := false, linked := false,
    VBO := 0, VAO := 0, EBO := 0, texture := 0, data := none }

/-- Collaborator answers of a run in which everything succeeds. -/
def goodEnv : Env :=
  { window := 1, gladLoaded := true, vertexShader := 1, fragmentShader := 2,
    shaderProgram := 3, vertexCompiled := true, fragmentCompiled := true, linked := true,
    VBO := 1, VAO := 1, EBO := 2, texture := 1, data := some (512, 512) }

/-- Collaborator answers of a run in which everything succeeds except
`glCreateProgram`, which returns `0`. -/
def noProgramEnv : Env := { goodEnv with shaderProgram := 0 }

/-- A frame in which nothing happens. -/
def idleFrame : FrameInput :=
  { key0Pressed := false, uniformLocation := 0, resizes := [], closeRequested := false }

/-- A frame in which the close key is down. -/
def keyFrame : FrameInput :=
  { key0Pressed := true, uniformLocation := 0, resizes := [], closeRequested := false }

/-! # Theorems -/

/-! ## The programs in closed form -/

theorem call_eq (c : Call) (w : World) : call c w = ⟨w.shouldClose, w.trace ++ [c]⟩ := rfl

theorem ifThen_not_call (c : Bool) (m : Call) (w : World) :
    ifThen (!c) (call m) w = ⟨w.shouldClose, w.trace ++ (if c then [] else [m])⟩ := by
  cases c <;> simp [ifThen, call_eq]

theorem ifThen_decide_call (p : Prop) [Decidable p] (m : Call) (w : World) :
    ifThen (decide p) (call m) w = ⟨w.shouldClose, w.trace ++ (if p then [m] else [])⟩ := by
  by_cases h : p <;> simp [ifThen, call_eq, h]

theorem ifThen_not_record (c : Bool) (d : List Call) (w : World) :
    ifThen (!c) (fun w => ⟨w.shouldClose, w.trace ++ d⟩) w
      = ⟨w.shouldClose, w.trace ++ (if c then [] else d)⟩ := by
  cases c <;> simp [ifThen]

theorem foldl_viewport (callback : Nat → Int → Int → World → World) (window : Nat)
    (hcb : ∀ x y w, callback window x y w = call (.glViewport 0 0 x y) w)
    (rs : List (Int × Int)) (w : World) :
    rs.foldl (fun w p => callback window p.1 p.2 w) w
      = ⟨w.shouldClose, w.trace ++ rs.map (fun p => Call.glViewport 0 0 p.1 p.2)⟩ := by
  induction rs generalizing w with
  | nil => simp
  | cons p rs ih =>
    rw [List.foldl_cons, ih, hcb]
    simp [call_eq, List.append_assoc]

/-- The loop in closed form, for a body that records `bt f` and raises the
flag exactly on closing frames. -/
theorem whileNotShouldClose_eq (window : Nat) (body : FrameInput → World → World)
    (bt : FrameInput → List Call)
    (hbody : ∀ f w, body f w = ⟨w.shouldClose || f.closes, w.trace ++ bt f⟩)
    (frames : List FrameInput) (w : World) (hw : w.shouldClose = false) :
    whileNotShouldClose window body frames w =
      (⟨frames.any FrameInput.closes,
        w.trace
          ++ (executed frames).flatMap (fun f => Call.glfwWindowShouldClose window false :: bt f)
          ++ (if frames.any FrameInput.closes then [Call.glfwWindowShouldClose window true]
              else [])⟩,
       frames.any FrameInput.closes) := by
  induction frames generalizing w with
  | nil =>
    unfold whileNotShouldClose
    cases w; simp_all [executed]
  | cons f rest ih =>
    unfold whileNotShouldClose
    rw [if_neg (by simp [hw])]
    simp only [hbody, call_eq, hw, Bool.false_or]
    cases hf : f.closes
    · rw [ih _ rfl]
      simp [executed, hf, List.append_assoc]
    · unfold whileNotShouldClose
      simp [executed, hf, call_eq, List.append_assoc]

theorem glfwPollEvents_eq (callback : Nat → Int → Int → World → World) (window : Nat)
    (hcb : ∀ x y w, callback window x y w = call (.glViewport 0 0 x y) w)
    (f : FrameInput) (w : World) :
    glfwPollEvents callback window f w
      = ⟨w.shouldClose || f.closeRequested, w.trace ++ .glfwPollEvents :: viewportCalls f⟩ := by
  unfold glfwPollEvents
  simp only [foldl_viewport callback window hcb]
  simp [call_eq, viewportCalls, List.append_assoc]

namespace HelloWindowClear

theorem processInput_eq_hello (window : Nat) (f : FrameInput) (w : World) :
    processInput window f w
      = ⟨w.shouldClose || f.key0Pressed, w.trace ++ inputCalls window f⟩ := by
  cases hk : f.key0Pressed <;>
    simp [processInput, glfwGetKey, glfwSetWindowShouldClose, call_eq, inputCalls, hk]

theorem init_eq_hello (env : Env) (w : World) :
    init env w = ⟨w.shouldClose, w.trace ++ setupCalls env⟩ := by
  simp only [init, ifThen_not_call, ifThen_decide_call, call_eq, setupCalls,
    List.append_assoc, List.cons_append, List.nil_append]

theorem loopBody_eq_hello (env : Env) (f : FrameInput) (w : World) :
    loopBody env.window f w = ⟨w.shouldClose || f.closes, w.trace ++ bodyTrace env f⟩ := by
  simp [loopBody, processInput_eq_hello, glfwPollEvents_eq framebuffer_size_callback env.window
    (fun _ _ _ => rfl), call_eq, bodyTrace, clearCalls, FrameInput.closes, List.append_assoc,
    Bool.or_assoc]

theorem main_eq_hello (env : Env) (frames : List FrameInput) :
    main env frames =
      ⟨⟨frames.any FrameInput.closes,
        runTrace env.window (setupCalls env) (bodyTrace env) [.glfwTerminate] frames⟩,
       if frames.any FrameInput.closes then some 0 else none⟩ := by
  unfold main
  simp only [init_eq_hello, World.start]
  rw [whileNotShouldClose_eq env.window _ (bodyTrace env) (loopBody_eq_hello env) frames _ rfl]
  cases h : frames.any FrameInput.closes <;> simp [runTrace, call_eq, List.append_assoc, h]

end HelloWindowClear

namespace ShadersUniform

theorem processInput_eq_shaders (window : Nat) (f : FrameInput) (w : World) :
    processInput window f w
      = ⟨w.shouldClose || f.key0Pressed, w.trace ++ inputCalls window f⟩ := by
  cases hk : f.key0Pressed <;>
    simp [processInput, glfwGetKey, glfwSetWindowShouldClose, call_eq, inputCalls, hk]

theorem init_eq_shaders (env : Env) (w : World) :
    init env w = ⟨w.shouldClose, w.trace ++ initTrace env⟩ := by
  simp only [init, ifThen_not_call, ifThen_decide_call, ifThen_not_record, call_eq,
    initTrace, setupCalls, stageCalls, linkCalls, vertices, sizeof_float, List.length_cons,
    List.length_nil, List.append_assoc, List.cons_append, List.nil_append]

theorem loopBody_eq_shaders (env : Env) (f : FrameInput) (w : World) :
    loopBody env f w = ⟨w.shouldClose || f.closes, w.trace ++ bodyTrace env f⟩ := by
  simp [loopBody, processInput_eq_shaders, glfwPollEvents_eq framebuffer_size_callback env.window
    (fun _ _ _ => rfl), call_eq, bodyTrace, clearCalls, FrameInput.closes, List.append_assoc,
    Bool.or_assoc]

theorem teardown_eq_shaders (env : Env) (w : World) :
    teardown env w = ⟨w.shouldClose, w.trace ++ teardownTrace env⟩ := by
  simp [teardown, teardownTrace, call_eq, List.append_assoc]

theorem main_eq_shaders (env : Env) (frames : List FrameInput) :
    main env frames =
      ⟨⟨frames.any FrameInput.closes,
        runTrace env.window (initTrace env) (bodyTrace env) (teardownTrace env) frames⟩,
       if frames.any FrameInput.closes then some 0 else none⟩ := by
  unfold main
  simp only [init_eq_shaders, World.start]
  rw [whileNotShouldClose_eq env.window _ (bodyTrace env) (loopBody_eq_shaders env) frames _ rfl]
  cases h : frames.any FrameInput.closes <;>
    simp [runTrace, teardown_eq_shaders, List.append_assoc, h]

end ShadersUniform

namespace Textures

theorem processInput_eq_textures (window : Nat) (f : FrameInput) (w : World) :
    processInput window f w
      = ⟨w.shouldClose || f.key0Pressed, w.trace ++ inputCalls window f⟩ := by
  cases hk : f.key0Pressed <;>
    simp [processInput, glfwGetKey, glfwSetWindowShouldClose, call_eq, inputCalls, hk]

theorem init_eq_textures (env : Env) (w : World) :
    init env w = ⟨w.shouldClose, w.trace ++ initTrace env⟩ := by
  rcases hd : env.data with _ | ⟨width, height⟩ <;>
  simp only [init, Shader.ctor, Shader.use, ifThen_not_call, ifThen_decide_call,
    ifThen_not_record, call_eq, hd,
    initTrace, setupCalls, stageCalls, linkCalls, textureCalls, decodeCalls, bufferCalls, vertices,
    indices,
    sizeof_float, sizeof_uint, List.length_cons, List.length_nil, List.append_assoc,
    List.cons_append, List.nil_append]

theorem loopBody_eq_textures (env : Env) (f : FrameInput) (w : World) :
    loopBody env f w = ⟨w.shouldClose || f.closes, w.trace ++ bodyTrace env f⟩ := by
  simp [loopBody, processInput_eq_textures, glfwPollEvents_eq framebuffer_size_callback env.window
    (fun _ _ _ => rfl), call_eq, bodyTrace, clearCalls, FrameInput.closes, List.append_assoc,
    Bool.or_assoc]

theorem teardown_eq_textures (env : Env) (w : World) :
    teardown env w = ⟨w.shouldClose, w.trace ++ teardownTrace env⟩ := by
  simp [teardown, teardownTrace, call_eq, List.append_assoc]

theorem main_eq_textures (env : Env) (frames : List FrameInput) :
    main env frames =
      ⟨⟨frames.any FrameInput.closes,
        runTrace env.window (initTrace env) (bodyTrace env) (teardownTrace env) frames⟩,
       if frames.any FrameInput.closes then some 0 else none⟩ := by
  unfold main
  simp only [init_eq_textures, World.start]
  rw [whileNotShouldClose_eq env.window _ (bodyTrace env) (loopBody_eq_textures env) frames _ rfl]
  cases h : frames.any FrameInput.closes <;>
    simp [runTrace, teardown_eq_textures, List.append_assoc, h]

end Textures

/-! ## Observations on the parts of a trace -/

theorem countP_ite {α : Type} (p : α → Bool) (c : Prop) [Decidable c] (l₁ l₂ : List α) :
    (if c then l₁ else l₂).countP p = if c then l₁.countP p else l₂.countP p := by
  split <;> rfl

theorem filter_ite {α : Type} (p : α → Bool) (c : Prop) [Decidable c] (l₁ l₂ : List α) :
    (if c then l₁ else l₂).filter p = if c then l₁.filter p else l₂.filter p := by
  split <;> rfl

theorem filter_viewportCalls (p : Call → Bool) (hp : ∀ x y w h, p (.glViewport x y w h) = false)
    (f : FrameInput) : (viewportCalls f).filter p = [] := by
  rw [List.filter_eq_nil_iff]
  intro a ha
  simp only [viewportCalls, List.mem_map] at ha
  obtain ⟨q, -, rfl⟩ := ha
  simp [hp]

theorem countP_viewportCalls (p : Call → Bool) (hp : ∀ x y w h, p (.glViewport x y w h) = false)
    (f : FrameInput) : (viewportCalls f).countP p = 0 := by
  rw [List.countP_eq_length_filter, filter_viewportCalls p hp]
  rfl

theorem countP_flatMap_const {α : Type} (p : Call → Bool) (g : α → List Call) (k : Nat)
    (hg : ∀ a, (g a).countP p = k) (l : List α) :
    (l.flatMap g).countP p = k * l.length := by
  induction l with
  | nil => simp
  | cons a l ih => simp [List.flatMap_cons, List.countP_append, hg, ih, Nat.mul_succ, Nat.add_comm]

/-- Counting in a run: the initialization, a constant number per executed
frame, and the exit with the teardown. -/
theorem countP_runTrace (p : Call → Bool) (window : Nat) (initT : List Call)
    (bodyT : FrameInput → List Call) (teardownT : List Call) (frames : List FrameInput)
    (k : Nat) (hbody : ∀ f, (Call.glfwWindowShouldClose window false :: bodyT f).countP p = k) :
    (runTrace window initT bodyT teardownT frames).countP p
      = initT.countP p + k * (executed frames).length
        + (if frames.any FrameInput.closes then
             (Call.glfwWindowShouldClose window true :: teardownT).countP p
           else 0) := by
  unfold runTrace
  rw [List.countP_append, List.countP_append, countP_flatMap_const p _ k hbody, countP_ite]
  rfl

theorem filter_flatMap_frameEvents {α : Type} (g : α → List Call) (t d s : Call)
    (hg : ∀ a, (g a).filter Call.isFrameEvent = [t, d, s]) (l : List α) :
    (l.flatMap g).filter Call.isFrameEvent = frameEvents t d s l.length := by
  induction l with
  | nil => rfl
  | cons a l ih => simp [List.flatMap_cons, List.filter_append, hg, ih, frameEvents]

/-! ## Loop tests, draws and presents -/

/-- Filtering the loop tests, draw calls and present calls of a run. -/
theorem filter_frameEvents_runTrace (window : Nat) (initT : List Call)
    (bodyT : FrameInput → List Call) (teardownT : List Call) (frames : List FrameInput)
    (d s : Call)
    (hinit : initT.filter Call.isFrameEvent = [])
    (hbody : ∀ f, (Call.glfwWindowShouldClose window false :: bodyT f).filter
      Call.isFrameEvent = [.glfwWindowShouldClose window false, d, s])
    (htear : teardownT.filter Call.isFrameEvent = []) :
    (runTrace window initT bodyT teardownT frames).filter Call.isFrameEvent
      = frameEvents (.glfwWindowShouldClose window false) d s (executed frames).length := by
  unfold runTrace
  rw [List.filter_append, List.filter_append, hinit,
    filter_flatMap_frameEvents _ _ d s hbody, filter_ite]
  have : (Call.glfwWindowShouldClose window true :: teardownT).filter Call.isFrameEvent
      = [] := by
    rw [List.filter_cons, htear]; rfl
  simp [this]

theorem countP_isDraw_frameEvents (t d s : Call) (ht : t.isDraw = false)
    (hd : d.isDraw = true) (hs : s.isDraw = false) (n : Nat) :
    (frameEvents t d s n).countP Call.isDraw = n := by
  induction n with
  | zero => rfl
  | succ n ih => simp [frameEvents, List.countP_cons, ht, hd, hs, ih]

theorem countP_isPresent_frameEvents (t d s : Call) (ht : t.isPresent = false)
    (hd : d.isPresent = false) (hs : s.isPresent = true) (n : Nat) :
    (frameEvents t d s n).countP Call.isPresent = n := by
  induction n with
  | zero => rfl
  | succ n ih => simp [frameEvents, List.countP_cons, ht, hd, hs, ih]

theorem countP_isDraw_filter (t : List Call) :
    (t.filter Call.isFrameEvent).countP Call.isDraw = t.countP Call.isDraw := by
  rw [List.countP_filter]
  congr 1
  funext c
  cases h : c.isDraw <;> simp [Call.isFrameEvent, h]

theorem countP_isPresent_filter (t : List Call) :
    (t.filter Call.isFrameEvent).countP Call.isPresent = t.countP Call.isPresent := by
  rw [List.countP_filter]
  congr 1
  funext c
  cases h : c.isPresent <;> simp [Call.isFrameEvent, h]

namespace ShadersUniform

theorem filter_frameEvents_init_shaders (env : Env) :
    (initTrace env).filter Call.isFrameEvent = [] := by
  simp [initTrace, setupCalls, stageCalls, linkCalls, filter_ite, Call.isFrameEvent,
    Call.startsIteration, Call.startsIteration, Call.isDraw, Call.isPresent]

theorem filter_frameEvents_body_shaders (env : Env) (f : FrameInput) :
    (Call.glfwWindowShouldClose env.window false :: bodyTrace env f).filter Call.isFrameEvent
      = [.glfwWindowShouldClose env.window false, .glDrawArrays .GL_TRIANGLES 0 3,
         .glfwSwapBuffers env.window] := by
  simp [bodyTrace, inputCalls, clearCalls, filter_ite, List.filter_append, List.filter_cons,
    filter_viewportCalls, Call.isFrameEvent, Call.startsIteration, Call.isDraw, Call.isPresent]

theorem iterations_main_shaders (env : Env) (frames : List FrameInput) :
    iterations (main env frames).world.trace = (executed frames).length := by
  rw [main_eq_shaders, iterations, countP_runTrace _ _ _ _ _ _ 1]
  · simp [initTrace, setupCalls, stageCalls, linkCalls, teardownTrace, countP_ite,
      List.countP_cons, List.countP_append, Call.startsIteration]
  · intro f
    simp [bodyTrace, inputCalls, clearCalls, countP_ite, List.countP_cons, List.countP_append,
      countP_viewportCalls, Call.startsIteration]

theorem filter_frameEvents_main_shaders (env : Env) (frames : List FrameInput) :
    (main env frames).world.trace.filter Call.isFrameEvent
      = frameEvents (.glfwWindowShouldClose env.window false)
          (.glDrawArrays .GL_TRIANGLES 0 3) (.glfwSwapBuffers env.window)
          (executed frames).length := by
  rw [main_eq_shaders]
  exact filter_frameEvents_runTrace _ _ _ _ _ _ _ (filter_frameEvents_init_shaders env)
    (filter_frameEvents_body_shaders env) (by simp [teardownTrace, Call.isFrameEvent,
      Call.startsIteration, Call.isDraw, Call.isPresent])

end ShadersUniform

namespace Textures

theorem filter_frameEvents_init_textures (env : Env) :
    (initTrace env).filter Call.isFrameEvent = [] := by
  rcases hd : env.data with _ | ⟨width, height⟩ <;>
  simp [initTrace, setupCalls, stageCalls, linkCalls, textureCalls, decodeCalls, bufferCalls, hd, filter_ite,
    Call.isFrameEvent, Call.startsIteration, Call.isDraw, Call.isPresent]

theorem filter_frameEvents_body_textures (env : Env) (f : FrameInput) :
    (Call.glfwWindowShouldClose env.window false :: bodyTrace env f).filter Call.isFrameEvent
      = [.glfwWindowShouldClose env.window false,
         .glDrawElements .GL_TRIANGLES 6 .GL_UNSIGNED_INT 0, .glfwSwapBuffers env.window] := by
  simp [bodyTrace, inputCalls, clearCalls, filter_ite, List.filter_append, List.filter_cons,
    filter_viewportCalls, Call.isFrameEvent, Call.startsIteration, Call.isDraw, Call.isPresent]

theorem iterations_main_textures (env : Env) (frames : List FrameInput) :
    iterations (main env frames).world.trace = (executed frames).length := by
  rw [main_eq_textures, iterations, countP_runTrace _ _ _ _ _ _ 1]
  · rcases hd : env.data with _ | ⟨width, height⟩ <;>
    simp [initTrace, setupCalls, stageCalls, linkCalls, textureCalls, decodeCalls, bufferCalls, hd,
      teardownTrace, countP_ite, List.countP_cons, List.countP_append, Call.startsIteration]
  · intro f
    simp [bodyTrace, inputCalls, clearCalls, countP_ite, List.countP_cons, List.countP_append,
      countP_viewportCalls, Call.startsIteration]

theorem filter_frameEvents_main_textures (env : Env) (frames : List FrameInput) :
    (main env frames).world.trace.filter Call.isFrameEvent
      = frameEvents (.glfwWindowShouldClose env.window false)
          (.glDrawElements .GL_TRIANGLES 6 .GL_UNSIGNED_INT 0)
          (.glfwSwapBuffers env.window) (executed frames).length := by
  rw [main_eq_textures]
  exact filter_frameEvents_runTrace _ _ _ _ _ _ _ (filter_frameEvents_init_textures env)
    (filter_frameEvents_body_textures env) (by simp [teardownTrace, Call.isFrameEvent,
      Call.startsIteration, Call.isDraw, Call.isPresent])

end Textures

/-! ## Calls made only by the initialization -/

/-- Counting calls that only the initialization can make. -/
theorem countP_runTrace_init (p : Call → Bool) (window : Nat) (initT : List Call)
    (bodyT : FrameInput → List Call) (teardownT : List Call) (frames : List FrameInput)
    (hloop : ∀ r, p (.glfwWindowShouldClose window r) = false)
    (hbody : ∀ f, (bodyT f).countP p = 0) (htear : teardownT.countP p = 0) :
    (runTrace window initT bodyT teardownT frames).countP p = initT.countP p := by
  rw [countP_runTrace p window initT bodyT teardownT frames 0]
  · simp [List.countP_cons, hloop, htear]
  · intro f
    simp [List.countP_cons, hloop, hbody]

theorem countP_inputCalls (p : Call → Bool) (window : Nat) (f : FrameInput)
    (h₁ : ∀ k r, p (.glfwGetKey window k r) = false)
    (h₂ : ∀ v, p (.glfwSetWindowShouldClose window v) = false) :
    (inputCalls window f).countP p = 0 := by
  cases hk : f.key0Pressed <;> simp [inputCalls, hk, List.countP_cons, h₁, h₂]

namespace ShadersUniform

/-- Counting, in a run of shaders_uniform_my, calls of a kind that the loop
and the teardown never make. -/
theorem countP_main_init_shaders (p : Call → Bool) (env : Env) (frames : List FrameInput)
    (hloop : ∀ r, p (.glfwWindowShouldClose env.window r) = false)
    (hbody : ∀ f, (bodyTrace env f).countP p = 0) (htear : (teardownTrace env).countP p = 0) :
    (main env frames).world.trace.countP p = (initTrace env).countP p := by
  rw [main_eq_shaders]
  exact countP_runTrace_init p _ _ _ _ _ hloop hbody htear

theorem countP_isDraw_main_shaders (env : Env) (frames : List FrameInput) :
    (main env frames).world.trace.countP Call.isDraw = (executed frames).length := by
  rw [← countP_isDraw_filter, filter_frameEvents_main_shaders]
  apply countP_isDraw_frameEvents <;> rfl

end ShadersUniform

namespace Textures

/-- Counting, in a run of textures_my, calls of a kind that the loop and the
teardown never make. -/
theorem countP_main_init_textures (p : Call → Bool) (env : Env) (frames : List FrameInput)
    (hloop : ∀ r, p (.glfwWindowShouldClose env.window r) = false)
    (hbody : ∀ f, (bodyTrace env f).countP p = 0) (htear : (teardownTrace env).countP p = 0) :
    (main env frames).world.trace.countP p = (initTrace env).countP p := by
  rw [main_eq_textures]
  exact countP_runTrace_init p _ _ _ _ _ hloop hbody htear

theorem countP_isDraw_main_textures (env : Env) (frames : List FrameInput) :
    (main env frames).world.trace.countP Call.isDraw = (executed frames).length := by
  rw [← countP_isDraw_filter, filter_frameEvents_main_textures]
  apply countP_isDraw_frameEvents <;> rfl

end Textures

/-! ## Bindings along a trace -/

theorem bindings_run_append (b : Bindings) (l₁ l₂ : List Call) :
    b.run (l₁ ++ l₂) = (b.run l₁).run l₂ := by
  simp [Bindings.run, List.foldl_append]

theorem bindings_run_cons (b : Bindings) (c : Call) (l : List Call) :
    b.run (c :: l) = (b.step c).run l := rfl

theorem bindings_run_nil (b : Bindings) : b.run [] = b := rfl

theorem drawStates_append (b : Bindings) (l₁ l₂ : List Call) :
    drawStates b (l₁ ++ l₂) = drawStates b l₁ ++ drawStates (b.run l₁) l₂ := by
  induction l₁ generalizing b with
  | nil => rfl
  | cons c l ih =>
    cases hc : c.isDraw <;> simp [drawStates, hc, ih, bindings_run_cons]

/-- A sequence of calls none of which binds anything leaves the bindings alone
and shows them unchanged to the draw calls it contains. -/
theorem run_of_step_eq (b : Bindings) (l : List Call) (h : ∀ c ∈ l, ∀ b', Bindings.step b' c = b') :
    b.run l = b ∧ drawStates b l = List.replicate (l.countP Call.isDraw) b.drawState := by
  induction l with
  | nil => exact ⟨rfl, rfl⟩
  | cons c l ih =>
    have hc := h c (List.mem_cons_self _ _) b
    have ih' := ih (fun c' hc' => h c' (List.mem_cons_of_mem _ hc'))
    constructor
    · rw [bindings_run_cons, hc]; exact ih'.1
    · cases hd : c.isDraw <;>
        simp [drawStates, hd, hc, ih'.2, List.countP_cons, List.replicate_succ]

theorem step_eq_of_mem_viewportCalls (f : FrameInput) :
    ∀ c ∈ viewportCalls f, ∀ b', Bindings.step b' c = b' := by
  intro c hc b'
  simp only [viewportCalls, List.mem_map] at hc
  obtain ⟨q, -, rfl⟩ := hc
  rfl

theorem step_eq_of_mem_inputCalls (window : Nat) (f : FrameInput) :
    ∀ c ∈ inputCalls window f, ∀ b', Bindings.step b' c = b' := by
  intro c hc b'
  cases hk : f.key0Pressed <;> simp [inputCalls, hk] at hc
  · subst hc; rfl
  · rcases hc with rfl | rfl <;> rfl

theorem step_eq_of_mem_setupCalls (env : Env) :
    ∀ c ∈ setupCalls env, ∀ b', Bindings.step b' c = b' := by
  intro c hc b'
  simp only [setupCalls, List.mem_append, List.mem_cons, List.mem_ite_nil_left,
    List.mem_ite_nil_right, List.mem_singleton, List.not_mem_nil, or_false] at hc
  rcases hc with (((((rfl | rfl | rfl | rfl | rfl) | ⟨-, rfl⟩) | rfl | rfl) | ⟨-, rfl⟩) | rfl) <;>
    rfl

theorem step_eq_of_mem_stageCalls (type : GLenum) (shader : Nat) (compiled : Bool) (m : Message) :
    ∀ c ∈ stageCalls type shader compiled m, ∀ b', Bindings.step b' c = b' := by
  intro c hc b'
  simp only [stageCalls, List.mem_append, List.mem_cons, List.mem_ite_nil_left,
    List.mem_singleton, List.not_mem_nil, or_false] at hc
  rcases hc with ((rfl | rfl | rfl | rfl) | ⟨-, rfl | rfl⟩) <;> rfl

theorem step_eq_of_mem_linkCalls (env : Env) :
    ∀ c ∈ linkCalls env, ∀ b', Bindings.step b' c = b' := by
  intro c hc b'
  simp only [linkCalls, List.mem_append, List.mem_cons, List.mem_ite_nil_left,
    List.mem_singleton, List.not_mem_nil, or_false] at hc
  rcases hc with ((rfl | rfl | rfl | rfl | rfl) | ⟨-, rfl | rfl⟩) <;> rfl

theorem drawStates_eq_nil (b : Bindings) (l : List Call) (h : ∀ c ∈ l, c.isDraw = false) :
    drawStates b l = [] := by
  induction l generalizing b with
  | nil => rfl
  | cons c l ih =>
    simp [drawStates, h c (List.mem_cons_self _ _),
      ih _ (fun c' hc' => h c' (List.mem_cons_of_mem _ hc'))]

theorem isDraw_eq_false_of_filter {l : List Call} (h : l.filter Call.isFrameEvent = [])
    (c : Call) (hc : c ∈ l) : c.isDraw = false := by
  have := List.filter_eq_nil_iff.mp h c hc
  cases hd : c.isDraw
  · rfl
  · simp [Call.isFrameEvent, hd] at this

/-- The draw states of a run whose loop body binds nothing and draws once:
every draw sees the bindings the initialization left. -/
theorem drawStates_runTrace (window : Nat) (initT : List Call)
    (bodyT : FrameInput → List Call) (teardownT : List Call) (frames : List FrameInput)
    (hinit : ∀ c ∈ initT, c.isDraw = false)
    (hbody : ∀ f, ∀ c ∈ bodyT f, ∀ b', Bindings.step b' c = b')
    (hdraw : ∀ f, (bodyT f).countP Call.isDraw = 1)
    (htear : ∀ c ∈ teardownT, c.isDraw = false) :
    drawStates Bindings.initial (runTrace window initT bodyT teardownT frames)
      = List.replicate (executed frames).length (Bindings.initial.run initT).drawState := by
  unfold runTrace
  have hloop : ∀ c ∈ (executed frames).flatMap
      (fun f => Call.glfwWindowShouldClose window false :: bodyT f),
      ∀ b', Bindings.step b' c = b' := by
    intro c hc b'
    simp only [List.mem_flatMap, List.mem_cons] at hc
    obtain ⟨f, -, rfl | hc⟩ := hc
    · rfl
    · exact hbody f c hc b'
  have hcount : ((executed frames).flatMap
      (fun f => Call.glfwWindowShouldClose window false :: bodyT f)).countP Call.isDraw
      = (executed frames).length := by
    rw [countP_flatMap_const Call.isDraw _ 1 (fun f => by
      rw [List.countP_cons, hdraw]; rfl)]
    simp
  have hexit : ∀ c ∈ (if frames.any FrameInput.closes then
      Call.glfwWindowShouldClose window true :: teardownT else []), c.isDraw = false := by
    intro c hc
    split at hc
    · rcases List.mem_cons.mp hc with rfl | hc
      · rfl
      · exact htear c hc
    · cases hc
  rw [drawStates_append, drawStates_append, drawStates_eq_nil _ _ hinit,
    drawStates_eq_nil _ _ hexit, (run_of_step_eq _ _ hloop).2, hcount]
  simp

namespace ShadersUniform

theorem step_eq_of_mem_bodyTrace_shaders (env : Env) (f : FrameInput) :
    ∀ c ∈ bodyTrace env f, ∀ b', Bindings.step b' c = b' := by
  intro c hc b'
  simp only [bodyTrace, clearCalls, List.mem_append, List.mem_cons, List.mem_singleton,
    List.not_mem_nil, or_false] at hc
  rcases hc with (((hc | rfl | rfl) | rfl | rfl | rfl | rfl | rfl | rfl) | hc)
  · exact step_eq_of_mem_inputCalls _ _ c hc b'
  all_goals first | rfl | exact step_eq_of_mem_viewportCalls _ c hc b'

theorem countP_isDraw_bodyTrace_shaders (env : Env) (f : FrameInput) :
    (bodyTrace env f).countP Call.isDraw = 1 := by
  simp [bodyTrace, clearCalls, List.countP_append, List.countP_cons, countP_inputCalls,
    countP_viewportCalls, Call.isDraw]

theorem run_initTrace_shaders (env : Env) :
    (Bindings.initial.run (initTrace env)).drawState = ⟨env.shaderProgram, env.VAO, 0, 0⟩ := by
  simp only [initTrace, bindings_run_append,
    (run_of_step_eq _ _ (step_eq_of_mem_setupCalls env)).1,
    (run_of_step_eq _ _ (step_eq_of_mem_stageCalls _ _ _ _)).1,
    (run_of_step_eq _ _ (step_eq_of_mem_linkCalls env)).1]
  simp [Bindings.run, Bindings.step, Bindings.drawState, Bindings.initial]

theorem drawStates_main_shaders (env : Env) (frames : List FrameInput) :
    drawStates Bindings.initial (main env frames).world.trace
      = List.replicate (executed frames).length ⟨env.shaderProgram, env.VAO, 0, 0⟩ := by
  rw [main_eq_shaders, drawStates_runTrace _ _ _ _ _
    (isDraw_eq_false_of_filter (filter_frameEvents_init_shaders env))
    (step_eq_of_mem_bodyTrace_shaders env) (countP_isDraw_bodyTrace_shaders env)
    (by simp [teardownTrace, Call.isDraw]), run_initTrace_shaders]

end ShadersUniform

namespace Textures

theorem step_eq_of_mem_bodyTrace_textures (env : Env) (f : FrameInput) :
    ∀ c ∈ bodyTrace env f, ∀ b', Bindings.step b' c = b' := by
  intro c hc b'
  simp only [bodyTrace, clearCalls, List.mem_append, List.mem_cons, List.mem_singleton,
    List.not_mem_nil, or_false] at hc
  rcases hc with (((hc | rfl | rfl) | rfl | rfl | rfl) | hc)
  · exact step_eq_of_mem_inputCalls _ _ c hc b'
  all_goals first | rfl | exact step_eq_of_mem_viewportCalls _ c hc b'

theorem countP_isDraw_bodyTrace_textures (env : Env) (f : FrameInput) :
    (bodyTrace env f).countP Call.isDraw = 1 := by
  simp [bodyTrace, clearCalls, List.countP_append, List.countP_cons, countP_inputCalls,
    countP_viewportCalls, Call.isDraw]

theorem run_initTrace_textures (env : Env) :
    (Bindings.initial.run (initTrace env)).drawState
      = ⟨env.shaderProgram, env.VAO, env.EBO, env.texture⟩ := by
  simp only [initTrace, bindings_run_append,
    (run_of_step_eq _ _ (step_eq_of_mem_setupCalls env)).1,
    (run_of_step_eq _ _ (step_eq_of_mem_stageCalls _ _ _ _)).1,
    (run_of_step_eq _ _ (step_eq_of_mem_linkCalls env)).1]
  rcases hd : env.data with _ | ⟨width, height⟩ <;>
  simp [textureCalls, decodeCalls, bufferCalls, hd, Bindings.run, Bindings.step,
    Bindings.drawState, Bindings.initial]

theorem drawStates_main_textures (env : Env) (frames : List FrameInput) :
    drawStates Bindings.initial (main env frames).world.trace
      = List.replicate (executed frames).length
          ⟨env.shaderProgram, env.VAO, env.EBO, env.texture⟩ := by
  rw [main_eq_textures, drawStates_runTrace _ _ _ _ _
    (isDraw_eq_false_of_filter (filter_frameEvents_init_textures env))
    (step_eq_of_mem_bodyTrace_textures env) (countP_isDraw_bodyTrace_textures env)
    (by simp [teardownTrace, Call.isDraw]), run_initTrace_textures]

end Textures

/-! ## Deletes along a trace -/

theorem deletes_eq_nil_of_isDelete {c : Call} (h : c.isDelete = false) : c.deletes = [] := by
  cases hd : c.deletes with
  | nil => rfl
  | cons x l => simp [Call.isDelete, hd] at h

theorem all_false_of_countP {p : Call → Bool} {l : List Call} (h : l.countP p = 0) :
    ∀ c ∈ l, p c = false := by
  intro c hc
  simpa using List.countP_eq_zero.mp h c hc

theorem flatMap_ite {α β : Type} (g : α → List β) (c : Prop) [Decidable c] (l₁ l₂ : List α) :
    (if c then l₁ else l₂).flatMap g = if c then l₁.flatMap g else l₂.flatMap g := by
  split <;> rfl

theorem deleted_eq_nil {l : List Call} (h : ∀ c ∈ l, c.isDelete = false) : deleted l = [] := by
  rw [deleted, List.flatMap_eq_nil_iff]
  exact fun c hc => deletes_eq_nil_of_isDelete (h c hc)

theorem mem_loopPart (window : Nat) (bodyT : FrameInput → List Call) (l : List FrameInput)
    (p : Call → Bool) (hloop : p (.glfwWindowShouldClose window false) = false)
    (hbody : ∀ f, ∀ c ∈ bodyT f, p c = false) :
    ∀ c ∈ l.flatMap (fun f => Call.glfwWindowShouldClose window false :: bodyT f),
      p c = false := by
  intro c hc
  simp only [List.mem_flatMap, List.mem_cons] at hc
  obtain ⟨f, -, rfl | hc⟩ := hc
  · exact hloop
  · exact hbody f c hc

/-- The handles a run deletes: those of the initialization, then those of the
teardown if the loop was left. -/
theorem deleted_runTrace (window : Nat) (initT : List Call)
    (bodyT : FrameInput → List Call) (teardownT : List Call) (frames : List FrameInput)
    (hbody : ∀ f, ∀ c ∈ bodyT f, c.isDelete = false) :
    deleted (runTrace window initT bodyT teardownT frames)
      = deleted initT ++ (if frames.any FrameInput.closes then deleted teardownT else []) := by
  have hl := deleted_eq_nil (mem_loopPart window bodyT (executed frames) Call.isDelete rfl hbody)
  unfold runTrace
  unfold deleted at *
  rw [List.flatMap_append, List.flatMap_append, hl]
  split <;> simp [Call.deletes]

namespace ShadersUniform

theorem bodyTrace_quiet_shaders (p : Call → Bool) (env : Env) (f : FrameInput)
    (h : [Call.glfwGetKey env.window .GLFW_KEY_0 .GLFW_PRESS,
          .glfwGetKey env.window .GLFW_KEY_0 .GLFW_RELEASE,
          .glfwSetWindowShouldClose env.window true,
          .glClearColor ⟨2, 1⟩ ⟨3, 1⟩ ⟨3, 1⟩ ⟨10, 1⟩, .glClear .GL_COLOR_BUFFER_BIT,
          .glfwGetTime,
          .glGetUniformLocation env.shaderProgram "ourColor" f.uniformLocation,
          .glUniform4f f.uniformLocation, .glDrawArrays .GL_TRIANGLES 0 3,
          .glfwSwapBuffers env.window, .glfwPollEvents].countP p = 0)
    (hv : ∀ x y w h, p (.glViewport x y w h) = false) :
    ∀ c ∈ bodyTrace env f, p c = false := by
  have h' := all_false_of_countP h
  simp only [List.mem_cons, List.mem_singleton, forall_eq_or_imp, forall_eq, List.not_mem_nil,
    false_imp_iff, implies_true, and_true] at h'
  apply all_false_of_countP
  cases hk : f.key0Pressed <;>
  simp [bodyTrace, inputCalls, clearCalls, hk, List.countP_append, List.countP_cons,
    countP_viewportCalls p hv, h']

theorem deleted_initTrace_shaders (env : Env) :
    deleted (initTrace env) = [(.shader, env.vertexShader), (.shader, env.fragmentShader)] := by
  simp [deleted, initTrace, setupCalls, stageCalls, linkCalls, flatMap_ite, Call.deletes]

theorem deleted_main_shaders (env : Env) (frames : List FrameInput) :
    deleted (main env frames).world.trace
      = [(.shader, env.vertexShader), (.shader, env.fragmentShader)]
        ++ (if frames.any FrameInput.closes then
              [(.vertexArray, env.VAO), (.buffer, env.VBO), (.program, env.shaderProgram)]
            else []) := by
  rw [main_eq_shaders, deleted_runTrace _ _ _ _ _
    (fun f => bodyTrace_quiet_shaders Call.isDelete env f rfl (fun _ _ _ _ => rfl)), deleted_initTrace_shaders]
  simp [deleted, teardownTrace, Call.deletes]

end ShadersUniform

namespace Textures

theorem bodyTrace_quiet_textures (p : Call → Bool) (env : Env) (f : FrameInput)
    (h : [Call.glfwGetKey env.window .GLFW_KEY_0 .GLFW_PRESS,
          .glfwGetKey env.window .GLFW_KEY_0 .GLFW_RELEASE,
          .glfwSetWindowShouldClose env.window true,
          .glClearColor ⟨2, 1⟩ ⟨3, 1⟩ ⟨3, 1⟩ ⟨10, 1⟩, .glClear .GL_COLOR_BUFFER_BIT,
          .glDrawElements .GL_TRIANGLES 6 .GL_UNSIGNED_INT 0,
          .glfwSwapBuffers env.window, .glfwPollEvents].countP p = 0)
    (hv : ∀ x y w h, p (.glViewport x y w h) = false) :
    ∀ c ∈ bodyTrace env f, p c = false := by
  have h' := all_false_of_countP h
  simp only [List.mem_cons, List.mem_singleton, forall_eq_or_imp, forall_eq, List.not_mem_nil,
    false_imp_iff, implies_true, and_true] at h'
  apply all_false_of_countP
  cases hk : f.key0Pressed <;>
  simp [bodyTrace, inputCalls, clearCalls, hk, List.countP_append, List.countP_cons,
    countP_viewportCalls p hv, h']

theorem deleted_initTrace_textures (env : Env) :
    deleted (initTrace env) = [(.shader, env.vertexShader), (.shader, env.fragmentShader)] := by
  rcases hd : env.data with _ | ⟨width, height⟩ <;>
  simp [deleted, initTrace, setupCalls, stageCalls, linkCalls, textureCalls, decodeCalls,
    bufferCalls, hd, flatMap_ite, Call.deletes]

theorem deleted_main_textures (env : Env) (frames : List FrameInput) :
    deleted (main env frames).world.trace
      = [(.shader, env.vertexShader), (.shader, env.fragmentShader)]
        ++ (if frames.any FrameInput.closes then
              [(.vertexArray, env.VAO), (.buffer, env.VBO), (.buffer, env.EBO)]
            else []) := by
  rw [main_eq_textures, deleted_runTrace _ _ _ _ _
    (fun f => bodyTrace_quiet_textures Call.isDelete env f rfl (fun _ _ _ _ => rfl)), deleted_initTrace_textures]
  simp [deleted, teardownTrace, Call.deletes]

end Textures

/-! ## Handles created along a trace -/

theorem creates_eq_nil_of_isCreate {c : Call} (h : c.isCreate = false) : c.creates = [] := by
  cases hd : c.creates with
  | nil => rfl
  | cons x l => simp [Call.isCreate, hd] at h

/-- The handles a run creates are those its initialization creates, when the
loop body and the teardown create nothing. -/
theorem created_runTrace (window : Nat) (initT : List Call)
    (bodyT : FrameInput → List Call) (teardownT : List Call) (frames : List FrameInput)
    (hbody : ∀ f, ∀ c ∈ bodyT f, c.isCreate = false)
    (htear : ∀ c ∈ teardownT, c.isCreate = false) :
    created (runTrace window initT bodyT teardownT frames) = created initT := by
  have hl : ((executed frames).flatMap
      (fun f => Call.glfwWindowShouldClose window false :: bodyT f)).flatMap Call.creates
      = [] := by
    rw [List.flatMap_eq_nil_iff]
    exact fun c hc => creates_eq_nil_of_isCreate
      (mem_loopPart window bodyT (executed frames) Call.isCreate rfl hbody c hc)
  have ht : (Call.glfwWindowShouldClose window true :: teardownT).flatMap Call.creates
      = [] := by
    rw [List.flatMap_eq_nil_iff]
    intro c hc
    rcases List.mem_cons.mp hc with rfl | hc
    · rfl
    · exact creates_eq_nil_of_isCreate (htear c hc)
  unfold runTrace created
  rw [List.flatMap_append, List.flatMap_append, hl, flatMap_ite, ht]
  simp

namespace ShadersUniform

theorem created_main_shaders (env : Env) (frames : List FrameInput) :
    created (main env frames).world.trace
      = [(.shader, env.vertexShader), (.shader, env.fragmentShader),
         (.program, env.shaderProgram), (.buffer, env.VBO), (.vertexArray, env.VAO)] := by
  rw [main_eq_shaders, created_runTrace _ _ _ _ _
    (fun f => bodyTrace_quiet_shaders Call.isCreate env f rfl (fun _ _ _ _ => rfl))
    (all_false_of_countP (by simp [teardownTrace, List.countP_cons, Call.isCreate,
      Call.creates]))]
  simp [created, initTrace, setupCalls, stageCalls, linkCalls, flatMap_ite, Call.creates]

/-- In shaders_uniform_my every run that returns has deleted exactly the
handles it created. -/
theorem created_perm_deleted_shaders (env : Env) (frames : List FrameInput)
    (h : (main env frames).returned = some 0) :
    (created (main env frames).world.trace).Perm (deleted (main env frames).world.trace) := by
  have hc : frames.any FrameInput.closes = true := by
    rw [main_eq_shaders] at h
    cases hx : frames.any FrameInput.closes
    · simp [hx] at h
    · rfl
  rw [created_main_shaders, deleted_main_shaders, hc]
  simp only [if_true, List.cons_append, List.nil_append]
  refine List.Perm.cons _ (List.Perm.cons _ ?_)
  exact (List.reverse_perm _).symm

end ShadersUniform

namespace Textures

theorem created_main_textures (env : Env) (frames : List FrameInput) :
    created (main env frames).world.trace
      = [(.shader, env.vertexShader), (.shader, env.fragmentShader),
         (.program, env.shaderProgram), (.texture, env.texture), (.buffer, env.VBO),
         (.vertexArray, env.VAO), (.buffer, env.EBO)] := by
  rw [main_eq_textures, created_runTrace _ _ _ _ _
    (fun f => bodyTrace_quiet_textures Call.isCreate env f rfl (fun _ _ _ _ => rfl))
    (all_false_of_countP (by simp [teardownTrace, List.countP_cons, Call.isCreate,
      Call.creates]))]
  rcases hd : env.data with _ | ⟨width, height⟩ <;>
  simp [created, initTrace, setupCalls, stageCalls, linkCalls, textureCalls, decodeCalls,
    bufferCalls, hd, flatMap_ite, Call.creates]

/-- In textures_my no run, whatever the collaborators answer, passes the
texture it created to a delete call. -/
theorem texture_created_never_deleted_textures (env : Env) (frames : List FrameInput) :
    timesCreated (.texture, env.texture) (main env frames).world.trace = 1
    ∧ timesDeleted (.texture, env.texture) (main env frames).world.trace = 0 := by
  unfold timesCreated timesDeleted
  rw [created_main_textures, deleted_main_textures]
  constructor
  · simp [List.countP_cons]
  · split <;> simp [List.countP_cons]

end Textures

theorem returned_iff_closes_shaders (env : Env) (frames : List FrameInput) :
    (ShadersUniform.main env frames).returned = some 0 ↔ frames.any FrameInput.closes = true := by
  rw [ShadersUniform.main_eq_shaders]
  cases frames.any FrameInput.closes <;> simp

theorem filterMap_ite {α β : Type} (g : α → Option β) (c : Prop) [Decidable c] (l₁ l₂ : List α) :
    (if c then l₁ else l₂).filterMap g = if c then l₁.filterMap g else l₂.filterMap g := by
  split <;> rfl

theorem filterMap_viewportCalls {β : Type} (g : Call → Option β)
    (hg : ∀ x y w h, g (.glViewport x y w h) = none) (f : FrameInput) :
    (viewportCalls f).filterMap g = [] := by
  rw [List.filterMap_eq_nil_iff]
  intro a ha
  simp only [viewportCalls, List.mem_map] at ha
  obtain ⟨q, -, rfl⟩ := ha
  exact hg _ _ _ _

theorem filterMap_flatMap_const {α β : Type} (g : Call → Option β) (h : α → List Call)
    (r : List β) (hr : ∀ a, (h a).filterMap g = r) (l : List α) :
    (l.flatMap h).filterMap g = (List.replicate l.length r).flatten := by
  induction l with
  | nil => rfl
  | cons a l ih =>
    simp [List.flatMap_cons, List.filterMap_append, hr, ih, List.replicate_succ]

/-- Collecting from a run a value that neither the loop test nor the teardown
carries. -/
theorem filterMap_runTrace {β : Type} (g : Call → Option β) (window : Nat)
    (initT : List Call) (bodyT : FrameInput → List Call) (teardownT : List Call)
    (frames : List FrameInput) (r : List β)
    (hloop : ∀ b, g (.glfwWindowShouldClose window b) = none)
    (hbody : ∀ f, (bodyT f).filterMap g = r) (htear : teardownT.filterMap g = []) :
    (runTrace window initT bodyT teardownT frames).filterMap g
      = initT.filterMap g ++ (List.replicate (executed frames).length r).flatten := by
  unfold runTrace
  rw [List.filterMap_append, List.filterMap_append,
    filterMap_flatMap_const g _ r (fun f => by rw [List.filterMap_cons, hloop]; exact hbody f),
    filterMap_ite, List.filterMap_cons, hloop, htear]
  simp








/-! ## The claims -/

/-- C1: evaluated at a run of textures_my in which everything succeeds and the
loop runs once.  The texture name written by `glGenTextures` is never passed
to a delete call, and the create counter ends above the delete counter. -/
theorem textures_handle_never_deleted :
    (Textures.main goodEnv [keyFrame]).returned = some 0
    ∧ timesCreated (.texture, goodEnv.texture) (Textures.main goodEnv [keyFrame]).world.trace = 1
    ∧ timesDeleted (.texture, goodEnv.texture) (Textures.main goodEnv [keyFrame]).world.trace = 0
    ∧ createCount (Textures.main goodEnv [keyFrame]).world.trace = 7
    ∧ deleteCount (Textures.main goodEnv [keyFrame]).world.trace = 5 := by
  rw [Textures.main_eq_textures]
  refine ⟨rfl, ?_, ?_, rfl, rfl⟩ <;> decide

/-- C2: evaluated at a run in which `glfwCreateWindow` returns `NULL`.  None of
the three programs stops after printing the failure message: each goes on to
`glfwMakeContextCurrent(NULL)`, the loader and the callback registration on the
null window, runs the render loop, and returns `0`. -/
theorem null_window_run_continues :
    (afterMessage .failedWindow
        (HelloWindowClear.main nullWindowEnv [keyFrame]).world.trace).take 4
      = [.glfwMakeContextCurrent 0, .gladLoadGLLoader false, .cout .failedGLAD,
         .glfwSetFramebufferSizeCallback 0]
    ∧ (afterMessage .failedWindow
        (ShadersUniform.main nullWindowEnv [keyFrame]).world.trace).take 4
      = [.glfwMakeContextCurrent 0, .gladLoadGLLoader false, .cout .failedGLAD,
         .glfwSetFramebufferSizeCallback 0]
    ∧ (afterMessage .failedWindow
        (Textures.main nullWindowEnv [keyFrame]).world.trace).take 4
      = [.glfwMakeContextCurrent 0, .gladLoadGLLoader false, .cout .failedGLAD,
         .glfwSetFramebufferSizeCallback 0]
    ∧ iterations (HelloWindowClear.main nullWindowEnv [keyFrame]).world.trace = 1
    ∧ iterations (ShadersUniform.main nullWindowEnv [keyFrame]).world.trace = 1
    ∧ iterations (Textures.main nullWindowEnv [keyFrame]).world.trace = 1
    ∧ (HelloWindowClear.main nullWindowEnv [keyFrame]).returned = some 0
    ∧ (ShadersUniform.main nullWindowEnv [keyFrame]).returned = some 0
    ∧ (Textures.main nullWindowEnv [keyFrame]).returned = some 0 := by
  rw [HelloWindowClear.main_eq_hello, ShadersUniform.main_eq_shaders, Textures.main_eq_textures]
  refine ⟨rfl, rfl, rfl, rfl, rfl, rfl, rfl, rfl, rfl⟩

/-- C3: in shaders_uniform_my and textures_my, the loop tests that start an
iteration, the draw calls and the present calls of any run are, in order, one
test followed by one draw followed by one present for every iteration of the
loop body, and nothing else: every iteration issues exactly one draw and one
present, the draw first.  So a run whose body executes `n` times records
exactly `n` draw calls and `n` present calls. -/
theorem one_draw_one_present_per_iteration (env : Env) (frames : List FrameInput) :
    (ShadersUniform.main env frames).world.trace.filter Call.isFrameEvent
        = frameEvents (.glfwWindowShouldClose env.window false)
            (.glDrawArrays .GL_TRIANGLES 0 3) (.glfwSwapBuffers env.window)
            (iterations (ShadersUniform.main env frames).world.trace)
    ∧ (ShadersUniform.main env frames).world.trace.countP Call.isDraw
        = iterations (ShadersUniform.main env frames).world.trace
    ∧ (ShadersUniform.main env frames).world.trace.countP Call.isPresent
        = iterations (ShadersUniform.main env frames).world.trace
    ∧ (Textures.main env frames).world.trace.filter Call.isFrameEvent
        = frameEvents (.glfwWindowShouldClose env.window false)
            (.glDrawElements .GL_TRIANGLES 6 .GL_UNSIGNED_INT 0)
            (.glfwSwapBuffers env.window) (iterations (Textures.main env frames).world.trace)
    ∧ (Textures.main env frames).world.trace.countP Call.isDraw
        = iterations (Textures.main env frames).world.trace
    ∧ (Textures.main env frames).world.trace.countP Call.isPresent
        = iterations (Textures.main env frames).world.trace
    ∧ iterations (ShadersUniform.main env frames).world.trace = (executed frames).length
    ∧ iterations (Textures.main env frames).world.trace = (executed frames).length := by
  have hs := ShadersUniform.filter_frameEvents_main_shaders env frames
  have ht := Textures.filter_frameEvents_main_textures env frames
  rw [ShadersUniform.iterations_main_shaders, Textures.iterations_main_textures]
  refine ⟨hs, ?_, ?_, ht, ?_, ?_, rfl, rfl⟩
  · rw [← countP_isDraw_filter, hs]
    apply countP_isDraw_frameEvents <;> rfl
  · rw [← countP_isPresent_filter, hs]
    apply countP_isPresent_frameEvents <;> rfl
  · rw [← countP_isDraw_filter, ht]
    apply countP_isDraw_frameEvents <;> rfl
  · rw [← countP_isPresent_filter, ht]
    apply countP_isPresent_frameEvents <;> rfl

/-- C4: in textures_my, for both outcomes of the image decode, the texture
upload and the mipmap generation are each called once if a buffer came back
and not at all if `stbi_load` returned null; on failure exactly one
`Failed to load texture` line is written, on success none; `stbi_image_free`
is called exactly once; and in both cases the run goes on with the buffer
setup and the render loop, which executes the frames it would execute
anyway. -/
theorem texture_decode_outcomes (env : Env) (frames : List FrameInput) :
    (Textures.main env frames).world.trace.countP Call.isTexImage
        = (if env.data.isSome then 1 else 0)
    ∧ (Textures.main env frames).world.trace.countP Call.isMipmap
        = (if env.data.isSome then 1 else 0)
    ∧ (Textures.main env frames).world.trace.countP (Call.isMessage .failedTexture)
        = (if env.data.isSome then 0 else 1)
    ∧ Message.failedTexture.text = "Failed to load texture"
    ∧ (Textures.main env frames).world.trace.countP Call.isImageFree = 1
    ∧ (∃ pre, (Textures.main env frames).world.trace
        = pre ++ Call.stbi_image_free env.data.isSome
          :: (Textures.bufferCalls env
              ++ runTrace env.window [] (Textures.bodyTrace env) (Textures.teardownTrace env)
                  frames))
    ∧ iterations (Textures.main env frames).world.trace = (executed frames).length
    ∧ (Textures.main env frames).world.trace.countP Call.isDraw = (executed frames).length := by
  refine ⟨?_, ?_, ?_, rfl, ?_, ?_, Textures.iterations_main_textures env frames,
    Textures.countP_isDraw_main_textures env frames⟩
  · rw [Textures.countP_main_init_textures _ env frames (fun _ => rfl)
      (fun f => by simp [Textures.bodyTrace, clearCalls, List.countP_append, List.countP_cons,
        countP_inputCalls, countP_viewportCalls, Call.isTexImage])
      (by simp [Textures.teardownTrace, Call.isTexImage])]
    rcases hd : env.data with _ | ⟨width, height⟩ <;>
    simp [Textures.initTrace, setupCalls, stageCalls, linkCalls, Textures.textureCalls,
      Textures.decodeCalls, Textures.bufferCalls, hd, countP_ite, List.countP_cons, List.countP_append,
      Call.isTexImage]
  · rw [Textures.countP_main_init_textures _ env frames (fun _ => rfl)
      (fun f => by simp [Textures.bodyTrace, clearCalls, List.countP_append, List.countP_cons,
        countP_inputCalls, countP_viewportCalls, Call.isMipmap])
      (by simp [Textures.teardownTrace, Call.isMipmap])]
    rcases hd : env.data with _ | ⟨width, height⟩ <;>
    simp [Textures.initTrace, setupCalls, stageCalls, linkCalls, Textures.textureCalls,
      Textures.decodeCalls, Textures.bufferCalls, hd, countP_ite, List.countP_cons, List.countP_append,
      Call.isMipmap]
  · rw [Textures.countP_main_init_textures _ env frames (fun _ => rfl)
      (fun f => by simp [Textures.bodyTrace, clearCalls, List.countP_append, List.countP_cons,
        countP_inputCalls, countP_viewportCalls, Call.isMessage])
      (by simp [Textures.teardownTrace, Call.isMessage])]
    rcases hd : env.data with _ | ⟨width, height⟩ <;>
    simp [Textures.initTrace, setupCalls, stageCalls, linkCalls, Textures.textureCalls,
      Textures.decodeCalls, Textures.bufferCalls, hd, countP_ite, List.countP_cons, List.countP_append,
      Call.isMessage]
  · rw [Textures.countP_main_init_textures _ env frames (fun _ => rfl)
      (fun f => by simp [Textures.bodyTrace, clearCalls, List.countP_append, List.countP_cons,
        countP_inputCalls, countP_viewportCalls, Call.isImageFree])
      (by simp [Textures.teardownTrace, Call.isImageFree])]
    rcases hd : env.data with _ | ⟨width, height⟩ <;>
    simp [Textures.initTrace, setupCalls, stageCalls, linkCalls, Textures.textureCalls,
      Textures.decodeCalls, Textures.bufferCalls, hd, countP_ite, List.countP_cons, List.countP_append,
      Call.isImageFree]
  · rw [Textures.main_eq_textures]
    refine ⟨setupCalls env
      ++ stageCalls .GL_VERTEX_SHADER env.vertexShader env.vertexCompiled
          .vertexCompilationFailed
      ++ stageCalls .GL_FRAGMENT_SHADER env.fragmentShader env.fragmentCompiled
          .fragmentCompilationFailed
      ++ linkCalls env
      ++ [.glDeleteShader env.vertexShader, .glDeleteShader env.fragmentShader,
          .glUseProgram env.shaderProgram]
      ++ [.glGenTextures 1 env.texture, .glActiveTexture .GL_TEXTURE0,
          .glBindTexture .GL_TEXTURE_2D env.texture,
          .glTexParameteri .GL_TEXTURE_2D .GL_TEXTURE_WRAP_S .GL_REPEAT,
          .glTexParameteri .GL_TEXTURE_2D .GL_TEXTURE_WRAP_T .GL_REPEAT,
          .glTexParameteri .GL_TEXTURE_2D .GL_TEXTURE_MIN_FILTER .GL_LINEAR,
          .glTexParameteri .GL_TEXTURE_2D .GL_TEXTURE_MAG_FILTER .GL_LINEAR,
          .stbi_load "resources/textures/container.jpg" env.data.isSome]
      ++ Textures.decodeCalls env, ?_⟩
    simp [runTrace, Textures.initTrace, Textures.textureCalls, List.append_assoc]

/-- C5: in shaders_uniform_my, for every combination of compile statuses, a
stage's compilation-failure line (which names the stage) is written once if
that stage's status is false and not at all otherwise; and in every
combination the program is linked once and the render loop executes the frames
it would execute anyway. -/
theorem compile_failure_logged_once_per_stage (env : Env) (frames : List FrameInput) :
    (ShadersUniform.main env frames).world.trace.countP
        (Call.isMessage .vertexCompilationFailed) = (if env.vertexCompiled then 0 else 1)
    ∧ (ShadersUniform.main env frames).world.trace.countP
        (Call.isMessage .fragmentCompilationFailed) = (if env.fragmentCompiled then 0 else 1)
    ∧ Message.vertexCompilationFailed.text = "ERROR::SHADER::VERTEX::COMPILATION_FAILED\n"
    ∧ Message.fragmentCompilationFailed.text = "ERROR::SHADER::FRAGMENT::COMPILATION_FAILED\n"
    ∧ (ShadersUniform.main env frames).world.trace.countP Call.isLink = 1
    ∧ iterations (ShadersUniform.main env frames).world.trace = (executed frames).length
    ∧ (ShadersUniform.main env frames).world.trace.countP Call.isDraw
        = (executed frames).length := by
  refine ⟨?_, ?_, rfl, rfl, ?_, ShadersUniform.iterations_main_shaders env frames,
    ShadersUniform.countP_isDraw_main_shaders env frames⟩
  · rw [ShadersUniform.countP_main_init_shaders _ env frames (fun _ => rfl)
      (fun f => by simp [ShadersUniform.bodyTrace, clearCalls, List.countP_append,
        List.countP_cons, countP_inputCalls, countP_viewportCalls, Call.isMessage])
      (by simp [ShadersUniform.teardownTrace, Call.isMessage])]
    cases h : env.vertexCompiled <;>
    simp [ShadersUniform.initTrace, setupCalls, stageCalls, linkCalls, countP_ite, h,
      List.countP_cons, List.countP_append, Call.isMessage]
  · rw [ShadersUniform.countP_main_init_shaders _ env frames (fun _ => rfl)
      (fun f => by simp [ShadersUniform.bodyTrace, clearCalls, List.countP_append,
        List.countP_cons, countP_inputCalls, countP_viewportCalls, Call.isMessage])
      (by simp [ShadersUniform.teardownTrace, Call.isMessage])]
    cases h : env.fragmentCompiled <;>
    simp [ShadersUniform.initTrace, setupCalls, stageCalls, linkCalls, countP_ite, h,
      List.countP_cons, List.countP_append, Call.isMessage]
  · rw [ShadersUniform.countP_main_init_shaders _ env frames (fun _ => rfl)
      (fun f => by simp [ShadersUniform.bodyTrace, clearCalls, List.countP_append,
        List.countP_cons, countP_inputCalls, countP_viewportCalls, Call.isLink])
      (by simp [ShadersUniform.teardownTrace, Call.isLink])]
    simp [ShadersUniform.initTrace, setupCalls, stageCalls, linkCalls, countP_ite,
      List.countP_cons, List.countP_append, Call.isLink]

/-- C6: `processInput` raises the should-close flag exactly when the close key
is reported pressed and otherwise leaves it alone; when the key is pressed in
an iteration, the rest of that iteration (clear, draw where present, swap,
poll) still runs, the next evaluation of the loop condition leaves the loop,
and the remaining frame inputs are never consumed. -/
theorem closeKey_observed_at_next_loop_check (env : Env) (f : FrameInput)
    (rest : List FrameInput) (w : World)
    (hkey : f.key0Pressed = true) (hw : w.shouldClose = false) :
    (∀ (g : FrameInput) (v : World),
        HelloWindowClear.processInput env.window g v
          = ⟨if g.key0Pressed then true else v.shouldClose,
             v.trace ++ Call.glfwGetKey env.window .GLFW_KEY_0
                (if g.key0Pressed then .GLFW_PRESS else .GLFW_RELEASE)
              :: (if g.key0Pressed then [Call.glfwSetWindowShouldClose env.window true] else [])⟩
        ∧ ShadersUniform.processInput = HelloWindowClear.processInput
        ∧ Textures.processInput = HelloWindowClear.processInput)
    ∧ whileNotShouldClose env.window (HelloWindowClear.loopBody env.window) (f :: rest) w
        = (⟨true, w.trace ++
            [Call.glfwWindowShouldClose env.window false,
             .glfwGetKey env.window .GLFW_KEY_0 .GLFW_PRESS,
             .glfwSetWindowShouldClose env.window true,
             .glClearColor ⟨2, 1⟩ ⟨3, 1⟩ ⟨3, 1⟩ ⟨10, 1⟩, .glClear .GL_COLOR_BUFFER_BIT,
             .glfwSwapBuffers env.window, .glfwPollEvents]
            ++ viewportCalls f ++ [Call.glfwWindowShouldClose env.window true]⟩, true)
    ∧ whileNotShouldClose env.window (ShadersUniform.loopBody env) (f :: rest) w
        = (⟨true, w.trace ++
            [Call.glfwWindowShouldClose env.window false,
             .glfwGetKey env.window .GLFW_KEY_0 .GLFW_PRESS,
             .glfwSetWindowShouldClose env.window true,
             .glClearColor ⟨2, 1⟩ ⟨3, 1⟩ ⟨3, 1⟩ ⟨10, 1⟩, .glClear .GL_COLOR_BUFFER_BIT,
             .glfwGetTime,
             .glGetUniformLocation env.shaderProgram "ourColor" f.uniformLocation,
             .glUniform4f f.uniformLocation,
             .glDrawArrays .GL_TRIANGLES 0 3,
             .glfwSwapBuffers env.window, .glfwPollEvents]
            ++ viewportCalls f ++ [Call.glfwWindowShouldClose env.window true]⟩, true)
    ∧ whileNotShouldClose env.window (Textures.loopBody env) (f :: rest) w
        = (⟨true, w.trace ++
            [Call.glfwWindowShouldClose env.window false,
             .glfwGetKey env.window .GLFW_KEY_0 .GLFW_PRESS,
             .glfwSetWindowShouldClose env.window true,
             .glClearColor ⟨2, 1⟩ ⟨3, 1⟩ ⟨3, 1⟩ ⟨10, 1⟩, .glClear .GL_COLOR_BUFFER_BIT,
             .glDrawElements .GL_TRIANGLES 6 .GL_UNSIGNED_INT 0,
             .glfwSwapBuffers env.window, .glfwPollEvents]
            ++ viewportCalls f ++ [Call.glfwWindowShouldClose env.window true]⟩, true) := by
  have hc : f.closes = true := by simp [FrameInput.closes, hkey]
  refine ⟨fun g v => ⟨?_, rfl, rfl⟩, ?_, ?_, ?_⟩
  · rw [HelloWindowClear.processInput_eq_hello]
    cases hg : g.key0Pressed <;> simp [inputCalls, hg]
  · rw [whileNotShouldClose_eq env.window _ _ (HelloWindowClear.loopBody_eq_hello env) _ _ hw]
    simp [executed, hc, HelloWindowClear.bodyTrace, inputCalls, clearCalls, hkey,
      List.append_assoc]
  · rw [whileNotShouldClose_eq env.window _ _ (ShadersUniform.loopBody_eq_shaders env) _ _ hw]
    simp [executed, hc, ShadersUniform.bodyTrace, inputCalls, clearCalls, hkey,
      List.append_assoc]
  · rw [whileNotShouldClose_eq env.window _ _ (Textures.loopBody_eq_textures env) _ _ hw]
    simp [executed, hc, Textures.bodyTrace, inputCalls, clearCalls, hkey, List.append_assoc]

/-- Witness for C6: the close key is down in the first of two frames of a
freshly started loop. -/
theorem closeKey_observed_at_next_loop_check_witness :
    keyFrame.key0Pressed = true ∧ World.start.shouldClose = false
    ∧ whileNotShouldClose goodEnv.window (HelloWindowClear.loopBody goodEnv.window)
        (keyFrame :: [idleFrame]) World.start
        = (⟨true, World.start.trace ++
            [Call.glfwWindowShouldClose goodEnv.window false,
             .glfwGetKey goodEnv.window .GLFW_KEY_0 .GLFW_PRESS,
             .glfwSetWindowShouldClose goodEnv.window true,
             .glClearColor ⟨2, 1⟩ ⟨3, 1⟩ ⟨3, 1⟩ ⟨10, 1⟩, .glClear .GL_COLOR_BUFFER_BIT,
             .glfwSwapBuffers goodEnv.window, .glfwPollEvents]
            ++ viewportCalls keyFrame ++ [Call.glfwWindowShouldClose goodEnv.window true]⟩, true) :=
  ⟨rfl, rfl,
    (closeKey_observed_at_next_loop_check goodEnv keyFrame [idleFrame] World.start rfl rfl).2.1⟩

/-- C7: for every window and every pair of integers, the framebuffer-size
callback records exactly one call, `glViewport(0, 0, width, height)` with the
width and height it was given, and nothing else; the three programs define the
same callback. -/
theorem framebuffer_size_callback_viewport (window : Nat) (width height : Int) (w : World) :
    HelloWindowClear.framebuffer_size_callback window width height w
        = ⟨w.shouldClose, w.trace ++ [Call.glViewport 0 0 width height]⟩
    ∧ ShadersUniform.framebuffer_size_callback = HelloWindowClear.framebuffer_size_callback
    ∧ Textures.framebuffer_size_callback = HelloWindowClear.framebuffer_size_callback :=
  ⟨rfl, rfl, rfl⟩

/-- C8: the declared layouts and the draw parameters agree with the uploaded
data.  In textures_my the three attributes (3, 3 and 2 floats at float offsets
0, 3 and 6, stride 8 floats) read pairwise disjoint slots that together are
exactly the 8 slots of a vertex; the 32-float vertex array is 4 whole vertices
and is uploaded whole; each of the 6 indices is below 4; and every
`glDrawElements` passes the length of the index array as count.  In
shaders_uniform_my the one attribute reads exactly the 3 slots of a vertex and
every `glDrawArrays` starts at 0 and draws the 3 vertices of the 9-float
array. -/
theorem layout_matches_uploaded_data (env : Env) (frames : List FrameInput) :
    (attribs (Textures.main env frames).world.trace
        = [⟨0, 3, 8 * sizeof_float, 0⟩, ⟨1, 3, 8 * sizeof_float, 3 * sizeof_float⟩,
           ⟨2, 2, 8 * sizeof_float, 6 * sizeof_float⟩]
      ∧ (attribs (Textures.main env frames).world.trace).map Attrib.slots
          = [[0, 1, 2], [3, 4, 5], [6, 7]]
      ∧ (attribs (Textures.main env frames).world.trace).Pairwise
          (fun a b => List.Disjoint a.slots b.slots)
      ∧ (attribs (Textures.main env frames).world.trace).flatMap Attrib.slots = List.range 8
      ∧ Textures.vertices.length = 4 * 8
      ∧ uploads .GL_ARRAY_BUFFER (Textures.main env frames).world.trace
          = [Textures.vertices.length * sizeof_float]
      ∧ Textures.indices.length = 6
      ∧ (∀ i ∈ Textures.indices, i < 4)
      ∧ uploads .GL_ELEMENT_ARRAY_BUFFER (Textures.main env frames).world.trace
          = [Textures.indices.length * sizeof_uint]
      ∧ drawElementsCalls (Textures.main env frames).world.trace
          = List.replicate (iterations (Textures.main env frames).world.trace)
              Textures.indices.length)
    ∧ (attribs (ShadersUniform.main env frames).world.trace = [⟨0, 3, 3 * sizeof_float, 0⟩]
      ∧ (attribs (ShadersUniform.main env frames).world.trace).flatMap Attrib.slots
          = List.range 3
      ∧ ShadersUniform.vertices.length = 3 * 3
      ∧ uploads .GL_ARRAY_BUFFER (ShadersUniform.main env frames).world.trace
          = [ShadersUniform.vertices.length * sizeof_float]
      ∧ drawArraysCalls (ShadersUniform.main env frames).world.trace
          = List.replicate (iterations (ShadersUniform.main env frames).world.trace)
              (0, ShadersUniform.vertices.length / 3)) := by
  have hta : attribs (Textures.main env frames).world.trace
      = [⟨0, 3, 8 * sizeof_float, 0⟩, ⟨1, 3, 8 * sizeof_float, 3 * sizeof_float⟩,
         ⟨2, 2, 8 * sizeof_float, 6 * sizeof_float⟩] := by
    rw [Textures.main_eq_textures, attribs, filterMap_runTrace Call.attrib _ _ _ _ _ []
      (fun _ => rfl)
      (fun f => by
        cases hk : f.key0Pressed <;>
        simp [Textures.bodyTrace, inputCalls, clearCalls, hk, List.filterMap_append,
          List.filterMap_cons, filterMap_viewportCalls, Call.attrib])
      (by simp [Textures.teardownTrace, Call.attrib])]
    rcases hd : env.data with _ | ⟨width, height⟩ <;>
    simp [Textures.initTrace, setupCalls, stageCalls, linkCalls, Textures.textureCalls,
      Textures.decodeCalls, Textures.bufferCalls, hd, filterMap_ite, List.filterMap_append,
      List.filterMap_cons, Call.attrib, sizeof_float]
  have hsa : attribs (ShadersUniform.main env frames).world.trace
      = [⟨0, 3, 3 * sizeof_float, 0⟩] := by
    rw [ShadersUniform.main_eq_shaders, attribs, filterMap_runTrace Call.attrib _ _ _ _ _ []
      (fun _ => rfl)
      (fun f => by
        cases hk : f.key0Pressed <;>
        simp [ShadersUniform.bodyTrace, inputCalls, clearCalls, hk, List.filterMap_append,
          List.filterMap_cons, filterMap_viewportCalls, Call.attrib])
      (by simp [ShadersUniform.teardownTrace, Call.attrib])]
    simp [ShadersUniform.initTrace, setupCalls, stageCalls, linkCalls, filterMap_ite,
      List.filterMap_append, List.filterMap_cons, Call.attrib, sizeof_float]
  refine ⟨⟨hta, ?_, ?_, ?_, rfl, ?_, rfl, by decide, ?_, ?_⟩, hsa, ?_, rfl, ?_, ?_⟩
  · rw [hta]; decide
  · rw [hta]
    simp [Attrib.slots, sizeof_float, List.range', List.Disjoint]
    refine ⟨⟨?_, ?_⟩, ?_⟩ <;> intro a <;> omega
  · rw [hta]; decide
  · rw [Textures.main_eq_textures, uploads, filterMap_runTrace (Call.upload _) _ _ _ _ _ []
      (fun _ => rfl)
      (fun f => by
        cases hk : f.key0Pressed <;>
        simp [Textures.bodyTrace, inputCalls, clearCalls, hk, List.filterMap_append,
          List.filterMap_cons, filterMap_viewportCalls, Call.upload])
      (by simp [Textures.teardownTrace, Call.upload])]
    rcases hd : env.data with _ | ⟨width, height⟩ <;>
    simp [Textures.initTrace, setupCalls, stageCalls, linkCalls, Textures.textureCalls,
      Textures.decodeCalls, Textures.bufferCalls, hd, filterMap_ite, List.filterMap_append,
      List.filterMap_cons, Call.upload, sizeof_float, Textures.vertices]
  · rw [Textures.main_eq_textures, uploads, filterMap_runTrace (Call.upload _) _ _ _ _ _ []
      (fun _ => rfl)
      (fun f => by
        cases hk : f.key0Pressed <;>
        simp [Textures.bodyTrace, inputCalls, clearCalls, hk, List.filterMap_append,
          List.filterMap_cons, filterMap_viewportCalls, Call.upload])
      (by simp [Textures.teardownTrace, Call.upload])]
    rcases hd : env.data with _ | ⟨width, height⟩ <;>
    simp [Textures.initTrace, setupCalls, stageCalls, linkCalls, Textures.textureCalls,
      Textures.decodeCalls, Textures.bufferCalls, hd, filterMap_ite, List.filterMap_append,
      List.filterMap_cons, Call.upload, sizeof_uint, Textures.indices]
  · rw [Textures.iterations_main_textures, Textures.main_eq_textures, drawElementsCalls,
      filterMap_runTrace Call.drawElements _ _ _ _ _ [Textures.indices.length]
      (fun _ => rfl)
      (fun f => by
        cases hk : f.key0Pressed <;>
        simp [Textures.bodyTrace, inputCalls, clearCalls, hk, List.filterMap_append,
          List.filterMap_cons, filterMap_viewportCalls, Call.drawElements, Textures.indices])
      (by simp [Textures.teardownTrace, Call.drawElements])]
    rcases hd : env.data with _ | ⟨width, height⟩ <;>
    simp [Textures.initTrace, setupCalls, stageCalls, linkCalls, Textures.textureCalls,
      Textures.decodeCalls, Textures.bufferCalls, hd, filterMap_ite, List.filterMap_append,
      List.filterMap_cons, Call.drawElements]
  · rw [hsa]; decide
  · rw [ShadersUniform.main_eq_shaders, uploads, filterMap_runTrace (Call.upload _) _ _ _ _ _ []
      (fun _ => rfl)
      (fun f => by
        cases hk : f.key0Pressed <;>
        simp [ShadersUniform.bodyTrace, inputCalls, clearCalls, hk, List.filterMap_append,
          List.filterMap_cons, filterMap_viewportCalls, Call.upload])
      (by simp [ShadersUniform.teardownTrace, Call.upload])]
    simp [ShadersUniform.initTrace, setupCalls, stageCalls, linkCalls, filterMap_ite,
      List.filterMap_append, List.filterMap_cons, Call.upload, sizeof_float,
      ShadersUniform.vertices]
  · rw [ShadersUniform.iterations_main_shaders, ShadersUniform.main_eq_shaders, drawArraysCalls,
      filterMap_runTrace Call.drawArrays _ _ _ _ _ [(0, ShadersUniform.vertices.length / 3)]
      (fun _ => rfl)
      (fun f => by
        cases hk : f.key0Pressed <;>
        simp [ShadersUniform.bodyTrace, inputCalls, clearCalls, hk, List.filterMap_append,
          List.filterMap_cons, filterMap_viewportCalls, Call.drawArrays,
          ShadersUniform.vertices])
      (by simp [ShadersUniform.teardownTrace, Call.drawArrays])]
    simp [ShadersUniform.initTrace, setupCalls, stageCalls, linkCalls, filterMap_ite,
      List.filterMap_append, List.filterMap_cons, Call.drawArrays]

/-- C9: refuted as stated.  When `glCreateProgram` returns `0` the draw call of
shaders_uniform_my sees the null program, and in the run on a null window
answered with null names the draw call of textures_my sees four null
handles. -/
theorem draw_sees_null_handle :
    drawStates Bindings.initial (ShadersUniform.main noProgramEnv [keyFrame]).world.trace
        = [⟨0, 1, 0, 0⟩]
    ∧ drawStates Bindings.initial (Textures.main nullWindowEnv [keyFrame]).world.trace
        = [⟨0, 0, 0, 0⟩] := by
  rw [ShadersUniform.main_eq_shaders, Textures.main_eq_textures]
  exact ⟨by decide, by decide⟩

/-- C9: as amended.  With the graphics API as a binding-point machine, no loop
body of shaders_uniform_my or textures_my changes a binding, and every draw
call of every run, one per executed frame, sees the state the initialization
bound: the program and vertex array created there and, in textures_my, the
element buffer and the texture on unit 0 created there.  The names are the
ones the API returned, unchecked: a handle seen by a draw call is null exactly
when the API returned the null name for it. -/
theorem draw_sees_names_bound_at_initialization (env : Env) (frames : List FrameInput) :
    (∀ (f : FrameInput) (w : World),
        Bindings.initial.run (ShadersUniform.loopBody env f w).trace
          = Bindings.initial.run w.trace)
    ∧ (∀ (f : FrameInput) (w : World),
        Bindings.initial.run (Textures.loopBody env f w).trace
          = Bindings.initial.run w.trace)
    ∧ drawStates Bindings.initial (ShadersUniform.main env frames).world.trace
        = List.replicate (iterations (ShadersUniform.main env frames).world.trace)
            ⟨env.shaderProgram, env.VAO, 0, 0⟩
    ∧ iterations (ShadersUniform.main env frames).world.trace = (executed frames).length
    ∧ drawStates Bindings.initial (Textures.main env frames).world.trace
        = List.replicate (iterations (Textures.main env frames).world.trace)
            ⟨env.shaderProgram, env.VAO, env.EBO, env.texture⟩
    ∧ iterations (Textures.main env frames).world.trace = (executed frames).length
    ∧ (∀ s ∈ drawStates Bindings.initial (ShadersUniform.main env frames).world.trace,
        (s.program = 0 ↔ env.shaderProgram = 0) ∧ (s.vertexArray = 0 ↔ env.VAO = 0))
    ∧ (∀ s ∈ drawStates Bindings.initial (Textures.main env frames).world.trace,
        (s.program = 0 ↔ env.shaderProgram = 0) ∧ (s.vertexArray = 0 ↔ env.VAO = 0)
        ∧ (s.elementBuffer = 0 ↔ env.EBO = 0) ∧ (s.texture = 0 ↔ env.texture = 0)) := by
  refine ⟨?_, ?_, ?_, ShadersUniform.iterations_main_shaders env frames, ?_,
    Textures.iterations_main_textures env frames, ?_, ?_⟩
  · intro f w
    rw [ShadersUniform.loopBody_eq_shaders, bindings_run_append,
      (run_of_step_eq _ _ (ShadersUniform.step_eq_of_mem_bodyTrace_shaders env f)).1]
  · intro f w
    rw [Textures.loopBody_eq_textures, bindings_run_append,
      (run_of_step_eq _ _ (Textures.step_eq_of_mem_bodyTrace_textures env f)).1]
  · rw [ShadersUniform.drawStates_main_shaders, ShadersUniform.iterations_main_shaders]
  · rw [Textures.drawStates_main_textures, Textures.iterations_main_textures]
  · intro s hs
    rw [ShadersUniform.drawStates_main_shaders] at hs
    obtain rfl := List.eq_of_mem_replicate hs
    exact ⟨Iff.rfl, Iff.rfl⟩
  · intro s hs
    rw [Textures.drawStates_main_textures] at hs
    obtain rfl := List.eq_of_mem_replicate hs
    exact ⟨Iff.rfl, Iff.rfl, Iff.rfl, Iff.rfl⟩

end LearnOpenGL
